import Mathlib

/-!
Verification of the SuiteDreams weighted-random test-suite generator.

The development is a shallow embedding of the Python sources:

* productspec.py   — XmlHandler / SchemaHandler / ProductSpec / Fixture
* filebuilder.py   — FileBuilder (row-emitting test-case generator)
* testcasetable.py — the five role-specific table builders
* testcase.py      — TestCase (HTML table container)
* dates.py         — current_date
* main.py          — the run loop

Modelling conventions:

* An XML element is modelled by `Elem` (tag, attribute list, text content,
  child list).  The text content of an element is modelled as a `String`
  (the generic tree primitive of the specification); the `None` values that
  matter to the claims all arise from the selection logic itself
  (`process_property` returning a `(None, None)` pair) and are modelled by
  `Option`.
* Python exceptions are modelled by `Except Err` or, where rows emitted
  before the exception matter, by result records that keep the rows
  produced so far together with an optional error.
* The pseudo-random stream of `random.randint(1, 100)` is modelled by an
  abstract generator family `P : Int → Nat → Int` (value of the k-th draw
  of the stream seeded with a given integer) together with a state `RNG`
  holding the seed and the position.  `random.seed(s)` yields state
  `⟨s, 0⟩`; an unseeded `random.Random()` starts from operating-system
  entropy, modelled as an arbitrary integer parameter.
* Python `str(n)` for a non-negative integer is its decimal representation,
  embedded as `natToString` (fuel-based, so that it evaluates by `decide`).
-/

namespace SuiteDreams

/-! ## Errors -/

/-- The exception kinds observable from the embedded code:
`suiteDreams` is the SuiteDreamsException raised explicitly by the sources,
`assertErr` a failing Python `assert`, `attrErr` a Python AttributeError
raised when an attribute lookup on an object fails. -/
inductive Err where
  | suiteDreams (msg : String)
  | assertErr (msg : String)
  | attrErr (msg : String)
deriving DecidableEq, Repr

/-! ## The generic XML tree (external collaborator) -/

/-- A parsed XML element: tag, attributes, text content, children. -/
inductive Elem where
  | node (tag : String) (attrs : List (String × String)) (text : String)
         (children : List Elem)

def Elem.tag : Elem → String
  | .node t _ _ _ => t

def Elem.attrs : Elem → List (String × String)
  | .node _ a _ _ => a

def Elem.text : Elem → String
  | .node _ _ x _ => x

def Elem.children : Elem → List Elem
  | .node _ _ _ c => c

/-- Attribute lookup: first binding of the name, if any
(ElementTree `element.get(name)`). -/
def attrLookup : List (String × String) → String → Option String
  | [], _ => none
  | (k, v) :: rest, name => if k = name then some v else attrLookup rest name

/-- ElementTree `element.get(name, default)`. -/
def Elem.get (e : Elem) (name dflt : String) : String :=
  match attrLookup e.attrs name with
  | none => dflt
  | some v => v

/-- ElementTree `parent.findall(tag)`: all direct children with the tag,
in document order. -/
def elemFindAll (e : Elem) (tag : String) : List Elem :=
  e.children.filter (fun c => c.tag == tag)

/-- ElementTree `parent.find(tag)`: the first direct child with the tag. -/
def elemFind (e : Elem) (tag : String) : Option Elem :=
  (elemFindAll e tag).head?

/-! ## Python integer literals (`int(value)` and `str(num)`) -/

/-- Decimal digit value of a character, if it is a digit. -/
def digitVal? (c : Char) : Option Nat :=
  if 48 ≤ c.toNat ∧ c.toNat ≤ 57 then some (c.toNat - 48) else none

/-- Parse a non-empty all-digit character list. -/
def parseDigits : List Char → Option Nat
  | [] => none
  | [c] => digitVal? c
  | c :: rest =>
    match digitVal? c, parseDigits rest with
    | some d, some n => some (d * 10 ^ rest.length + n)
    | _, _ => none

/-- Python `int(value)` on a string: optional sign followed by digits;
anything else raises ValueError (modelled as `none`). -/
def parseInt? (s : String) : Option Int :=
  match s.data with
  | '-' :: rest => (parseDigits rest).map (fun n => -(n : Int))
  | l => (parseDigits l).map (fun n => (n : Int))

/-- Decimal digit character for a value below 10. -/
def digitChr (d : Nat) : Char := Char.ofNat (48 + d)

/-- Fuel-driven decimal conversion; `fuel = n + 1` always suffices since
the recursion divides by 10. -/
def natToStringAux : Nat → Nat → String
  | 0, _ => ""
  | fuel + 1, n =>
    if n < 10 then String.mk [digitChr n]
    else natToStringAux fuel (n / 10) ++ String.mk [digitChr (n % 10)]

/-- Python `str(n)` for a natural number: its decimal representation. -/
def natToString (n : Nat) : String := natToStringAux (n + 1) n

/-! ## The pseudo-random stream -/

/-- State of one `random` stream: the seed it was last seeded with and the
number of draws consumed since. The value of the k-th draw after seeding
with s is an abstract generator family `P s k`. -/
structure RNG where
  seed : Int
  pos : Nat
deriving DecidableEq, Repr

/-- `random.seed(s)` — the stream restarts at position 0 for seed s
(main.py line 141, filebuilder.py line 60). -/
def python_seed (s : Int) : RNG := ⟨s, 0⟩

/-- `random.Random()` with no argument seeds from operating-system entropy,
which is not a function of the product specification
(productspec.py line 159). -/
def Random_new (entropy : Int) : RNG := ⟨entropy, 0⟩

/-- `SchemaHandler.__init__` creates its own unseeded `Random` instance
(productspec.py lines 141-160):  `self._random = Random()`. -/
def schemaHandler_init_rng (entropy : Int) : RNG := Random_new entropy

/-- `FileBuilder.__init__` (filebuilder.py lines 56-61) ends with
`seed = product_spec.seed; random.seed(seed)`: whatever the module stream
state was before the constructor ran, it is reset to `python_seed seed`. -/
def fileBuilder_init_rng (specSeed : Int) (_gModule : RNG) : RNG :=
  python_seed specSeed

/-- `random.randint(1, 100)` / `self._random.randint(1, 100)`:
one draw from the stream (`random_selector` in both sources). -/
def random_selector (P : Int → Nat → Int) (g : RNG) : Int × RNG :=
  (P g.seed g.pos, ⟨g.seed, g.pos + 1⟩)

/-! ## SchemaHandler: generic schema operations (productspec.py) -/

/-- `XmlHandler.fetch_element`: the single child with the tag, or a
SuiteDreamsException. -/
def fetch_element (parent : Elem) (tag : String) : Except Err Elem :=
  match elemFind parent tag with
  | none => .error (.suiteDreams
      ("fetch_element: Element " ++ tag ++ " was not found in element " ++ parent.tag))
  | some e => .ok e

/-- `XmlHandler.fetch_text`: the text content of the single child with the
tag. -/
def fetch_text (parent : Elem) (tag : String) : Except Err String := do
  let e ← fetch_element parent tag
  pure e.text

/-- `XmlHandler.has_element`: whether the parent has children with the tag. -/
def has_element (parent : Elem) (tag : String) : Bool :=
  decide ((elemFindAll parent tag).length > 0)

/-- `SchemaHandler.fetch_weight` (productspec.py lines 397-420, duplicated
verbatim as `FileBuilder.fetch_weight`): the `weight` attribute, default
"100", parsed as an integer and checked to lie in [0, 100]. -/
def fetch_weight (e : Elem) : Except Err Int :=
  match parseInt? (e.get "weight" "100") with
  | none => .error (.suiteDreams
      ("Illegal value for weight attribute in element " ++ e.tag ++ " - " ++
       e.get "weight" "100"))
  | some w =>
    if w < 0 ∨ 100 < w then
      .error (.suiteDreams
        ("Weight on element " ++ e.tag ++
         " must be between 0 and 100 inclusive, not - " ++ e.get "weight" "100"))
    else .ok w

/-- `SchemaHandler.select_element` (productspec.py lines 384-395, duplicated
as `FileBuilder.select_element`): true iff the selector is at most the
element's weight. -/
def select_element (e : Elem) (selector : Int) : Except Err Bool :=
  match fetch_weight e with
  | .error err => .error err
  | .ok w => .ok (decide (selector ≤ w))

/-- The scan loop shared by `SchemaHandler.process_values`
(productspec.py lines 422-442) and `FileBuilder.process_values`
(filebuilder.py lines 473-493): walk the value elements in document order,
accumulating the weight sum, and return the text of the first element whose
cumulative sum reaches the selector; raise when the list is exhausted. -/
def process_values_loop (property_name element_name : String) (selector : Int) :
    Int → List Elem → Except Err String
  | _, [] => .error (.suiteDreams
      ("No values were selected for - " ++ property_name ++
       ". Element being searched is - " ++ element_name))
  | sum_weights, v :: rest =>
    match fetch_weight v with
    | .error e => .error e
    | .ok w =>
      let s := sum_weights + w
      if selector ≤ s then .ok v.text
      else process_values_loop property_name element_name selector s rest

/-- `SchemaHandler.process_values`: select one value among the children
named `element_name`, given the drawn selector. -/
def process_values (property_element : Elem) (property_name element_name : String)
    (selector : Int) : Except Err String :=
  process_values_loop property_name element_name selector 0
    (elemFindAll property_element element_name)

/-- `FileBuilder.process_values`: identical scan, but the selector is drawn
from the module-level stream inside the call. -/
def fb_process_values (P : Int → Nat → Int) (property_element : Elem)
    (property_name element_name : String) (g : RNG) : Except Err (String × RNG) :=
  let (selector, g) := random_selector P g
  match process_values_loop property_name element_name selector 0
      (elemFindAll property_element element_name) with
  | .error e => .error e
  | .ok v => .ok (v, g)

/-- `SchemaHandler.process_property` (productspec.py lines 364-382):
draw once to decide inclusion; if included, draw again and resolve a value;
otherwise return the pair (None, None). -/
def process_property (P : Int → Nat → Int) (property_element : Elem)
    (name_tag value_tag : String) (g : RNG) :
    Except Err ((Option String × Option String) × RNG) :=
  match fetch_text property_element name_tag with
  | .error e => .error e
  | .ok property_name =>
    let (selector, g) := random_selector P g
    match select_element property_element selector with
    | .error e => .error e
    | .ok true =>
      let (selector2, g) := random_selector P g
      match process_values property_element property_name value_tag selector2 with
      | .error e => .error e
      | .ok value => .ok ((some property_name, some value), g)
    | .ok false => .ok ((none, none), g)

/-- Loop of `SchemaHandler.fetch_selected_elements` (productspec.py
lines 444-459): keep the elements whose inclusion draw selects them. -/
def fetch_selected_elements (P : Int → Nat → Int) :
    List Elem → RNG → Except Err (List Elem × RNG)
  | [], g => .ok ([], g)
  | e :: rest, g =>
    let (selector, g) := random_selector P g
    match select_element e selector with
    | .error err => .error err
    | .ok true =>
      match fetch_selected_elements P rest g with
      | .error err => .error err
      | .ok (l, g) => .ok (e :: l, g)
    | .ok false => fetch_selected_elements P rest g

/-- Loop of `SchemaHandler.fetch_property_headings` (productspec.py
lines 334-348): one entry per Property element, the entry being the name
component of `process_property` — `none` when the property was not
selected. -/
def fetch_property_headings_loop (P : Int → Nat → Int) :
    List Elem → RNG → Except Err (List (Option String) × RNG)
  | [], g => .ok ([], g)
  | p :: rest, g =>
    match process_property P p "PropertyName" "Value" g with
    | .error e => .error e
    | .ok ((name, _value), g) =>
      match fetch_property_headings_loop P rest g with
      | .error e => .error e
      | .ok (l, g) => .ok (name :: l, g)

/-- `SchemaHandler.fetch_property_headings` over the Property children of a
parent element. -/
def fetch_property_headings (P : Int → Nat → Int) (parent : Elem) (g : RNG) :
    Except Err (List (Option String) × RNG) :=
  fetch_property_headings_loop P (elemFindAll parent "Property") g

/-- Loop of `SchemaHandler.fetch_property_values` (productspec.py
lines 350-362): like the headings loop but keeping the value component. -/
def fetch_property_values_loop (P : Int → Nat → Int) :
    List Elem → RNG → Except Err (List (Option String) × RNG)
  | [], g => .ok ([], g)
  | p :: rest, g =>
    match process_property P p "PropertyName" "Value" g with
    | .error e => .error e
    | .ok ((_name, value), g) =>
      match fetch_property_values_loop P rest g with
      | .error e => .error e
      | .ok (l, g) => .ok (value :: l, g)

/-- `SchemaHandler.fetch_property_values` over the Property children of a
parent element. -/
def fetch_property_values (P : Int → Nat → Int) (parent : Elem) (g : RNG) :
    Except Err (List (Option String) × RNG) :=
  fetch_property_values_loop P (elemFindAll parent "Property") g

/-- Loop of `SchemaHandler.fetch_property_name_value` (productspec.py
lines 317-332): run `process_property` on each Property child in order and
return the value of the first whose returned name equals the requested
name (an unselected property returns name None and never matches). -/
def fetch_property_name_value_loop (P : Int → Nat → Int) (property_name : String) :
    List Elem → RNG → Except Err (Option String × RNG)
  | [], g => .ok (none, g)
  | p :: rest, g =>
    match process_property P p "PropertyName" "Value" g with
    | .error e => .error e
    | .ok ((name, value), g) =>
      if name = some property_name then .ok (value, g)
      else fetch_property_name_value_loop P property_name rest g

/-- `SchemaHandler.fetch_property_name_value` over the Property children of
a parent element. -/
def fetch_property_name_value (P : Int → Nat → Int) (parent : Elem)
    (property_name : String) (g : RNG) : Except Err (Option String × RNG) :=
  fetch_property_name_value_loop P property_name (elemFindAll parent "Property") g

/-! ## Reference formulations used to state the claims -/

/-- The alternative-selection algorithm as the specification words it:
scan the candidates in order with a running sum of weights and pick the
first whose cumulative sum reaches the drawn value; `none` when the weights
are exhausted.  Stated over already-validated (weight, value) pairs. -/
def chooseAlternative (selector : Int) : Int → List (Int × String) → Option String
  | _, [] => none
  | acc, (w, v) :: rest =>
    if selector ≤ acc + w then some v else chooseAlternative selector (acc + w) rest

/-! ## dates.py -/

/-- `current_date` (dates.py lines 31-43), as a function of today's year,
month and day.  The source appends "0" + month + "-" when the month is
below 10 but plain str(month) — without the separating hyphen — otherwise,
and then appends the day. -/
def current_date (year month day : Nat) : String :=
  let result := natToString year ++ "-"
  let result :=
    if month < 10 then result ++ "0" ++ natToString month ++ "-"
    else result ++ natToString month
  let result :=
    if day < 10 then result ++ "0" ++ natToString day
    else result ++ natToString day
  result

/-! ## ProductSpec: domain accessors (productspec.py) -/

/-- `ProductSpec.account_number`: look up the AccountNumber property under
Policy; a missing or unselected property fails the assert. -/
def account_number (P : Int → Nat → Int) (root : Elem) (g : RNG) :
    Except Err (String × RNG) :=
  match fetch_element root "Policy" with
  | .error e => .error e
  | .ok policy_element =>
    match fetch_property_name_value P policy_element "AccountNumber" g with
    | .error e => .error e
    | .ok (acct_num, g) =>
      match acct_num with
      | none => .error (.assertErr "Account number was not found under Policy")
      | some a => .ok (a, g)

/-- `ProductSpec.submission_date`: the SubmissionDate property under
Policy, or `current_date()` when it is absent or not selected.  The
current date is supplied as the run's (year, month, day). -/
def submission_date (P : Int → Nat → Int) (y m d : Nat) (root : Elem) (g : RNG) :
    Except Err (String × RNG) :=
  match fetch_element root "Policy" with
  | .error e => .error e
  | .ok policy_element =>
    match fetch_property_name_value P policy_element "SubmissionDate" g with
    | .error e => .error e
    | .ok (date, g) =>
      match date with
      | none => .ok (current_date y m d, g)
      | some v => .ok (v, g)

/-- `ProductSpec.should_quote` (productspec.py lines 524-532): true iff the
Policy element has a Quote child or a Bind child. -/
def should_quote (root : Elem) : Except Err Bool :=
  match fetch_element root "Policy" with
  | .error e => .error e
  | .ok product_element =>
    .ok (has_element product_element "Quote" || has_element product_element "Bind")

/-- `ProductSpec.should_bind` (productspec.py lines 541-548): true iff the
Policy element has a Bind child. -/
def should_bind (root : Elem) : Except Err Bool :=
  match fetch_element root "Policy" with
  | .error e => .error e
  | .ok product_element => .ok (has_element product_element "Bind")

/-- The (role, fixture-class) pairs of the Fixtures section; each `Fixture`
object captures the text of the Role and FixtureClass children
(productspec.py lines 236-245 and 654-692). -/
def fixturesLoop : List Elem → Except Err (List (String × String))
  | [] => .ok []
  | e :: rest =>
    match fetch_text e "Role" with
    | .error err => .error err
    | .ok role =>
      match fetch_text e "FixtureClass" with
      | .error err => .error err
      | .ok fixtureClass =>
        match fixturesLoop rest with
        | .error err => .error err
        | .ok l => .ok ((role, fixtureClass) :: l)

/-- `SchemaHandler.fixtures`: parse the Fixtures element; the trailing
assert fails when the list is empty. -/
def fixtures (root : Elem) : Except Err (List (String × String)) :=
  match fetch_element root "Fixtures" with
  | .error e => .error e
  | .ok fixtures_element =>
    match fixturesLoop (elemFindAll fixtures_element "Fixture") with
    | .error e => .error e
    | .ok l =>
      if l.length = 0 then .error (.assertErr "Fixture list is empty.")
      else .ok l

/-- Search loop of `SchemaHandler.fetch_fixture`. -/
def fetch_fixture_loop (role : String) : List (String × String) → Option String
  | [] => none
  | (r, f) :: rest => if r = role then some f else fetch_fixture_loop role rest

/-- `SchemaHandler.fetch_fixture` (productspec.py lines 303-315): the
fixture class registered for a role, or None when the role is absent. -/
def fetch_fixture (root : Elem) (role : String) : Except Err (Option String) :=
  match fixtures root with
  | .error e => .error e
  | .ok l => .ok (fetch_fixture_loop role l)

/-- `SchemaHandler.suite_id`: the text of the SuiteId element. -/
def suite_id (root : Elem) : Except Err String := fetch_text root "SuiteId"

/-- `ProductSpec.fetch_question_sets`: the QuestionSet children of
Product. -/
def fetch_question_sets (root : Elem) : Except Err (List Elem) :=
  match fetch_element root "Product" with
  | .error e => .error e
  | .ok product_element => .ok (elemFindAll product_element "QuestionSet")

/-- `ProductSpec.fetch_question_code_and_answer` (productspec.py
lines 583-592): the question code together with an answer selected by one
draw. -/
def fetch_question_code_and_answer (P : Int → Nat → Int) (question_element : Elem)
    (g : RNG) : Except Err ((String × String) × RNG) :=
  match fetch_text question_element "QuestionCode" with
  | .error e => .error e
  | .ok question_code =>
    let (selector, g) := random_selector P g
    match process_values question_element "Question" "Answer" selector with
    | .error e => .error e
    | .ok answer => .ok ((question_code, answer), g)

/-- `ProductSpec.fetch_coverables` (productspec.py lines 594-601): the
weight-selected Coverable children of Product. -/
def fetch_coverables (P : Int → Nat → Int) (root : Elem) (g : RNG) :
    Except Err (List Elem × RNG) :=
  match fetch_element root "Product" with
  | .error e => .error e
  | .ok product_element =>
    fetch_selected_elements P (elemFindAll product_element "Coverable") g

/-- `ProductSpec.fetch_coverages`: the weight-selected Coverage children of
a coverable. -/
def fetch_coverages (P : Int → Nat → Int) (coverable_element : Elem) (g : RNG) :
    Except Err (List Elem × RNG) :=
  fetch_selected_elements P (elemFindAll coverable_element "Coverage") g

/-- `ProductSpec.fetch_coverage_term_value` (productspec.py lines 635-646):
one Term selected among the terms of a CoverageTerm by one draw. -/
def fetch_coverage_term_value (P : Int → Nat → Int) (cov_term_element : Elem)
    (g : RNG) : Except Err (String × RNG) :=
  let (selector, g) := random_selector P g
  match process_values cov_term_element "CoverageTerm" "Term" selector with
  | .error e => .error e
  | .ok value => .ok (value, g)

/-! ## Rows and TestCase (testcase.py) -/

/-- One cell of a fixture-table row.  Literal cells are `some`; the `None`
values that `process_property` produces for unselected properties flow into
cells unchanged. -/
abbrev Cell := Option String

/-- One row of a fixture table. -/
abbrev Row := List Cell

/-- The attributes (methods and properties) the `TestCase` class defines
(testcase.py); Python resolves method calls on a TestCase instance against
this set and raises AttributeError when the name is absent. -/
def testCase_methods : List String :=
  ["title", "project", "author", "description", "table",
   "initialize", "create_html", "create_head", "create_style", "create_body",
   "create_test_description", "create_dl_dt", "create_table", "add_row",
   "prettify", "dump", "output"]

/-- `TestCase.add_row` (testcase.py lines 278-294): append a row of one to
five cells to the table. -/
def testCase_add_row (rows : List Row) (values : Row) : Except Err (List Row) :=
  if values.length = 0 then
    .error (.assertErr "add_row: there must be at least one value in a row")
  else if 6 ≤ values.length then
    .error (.assertErr "add_row: there must be no more than 5 values in a row")
  else .ok (rows ++ [values])

/-- `FileBuilder.add_set_value` (filebuilder.py lines 514-527): build the
row and dispatch it to `test_case.add_row` when no attribute dictionary is
given, and to `test_case.add_row_attrib` otherwise.  `TestCase` defines no
attribute named add_row_attrib (see `testCase_methods`), so the second
dispatch fails the attribute lookup; the guarded branch is unreachable and
given the row-appending result the call intends. -/
def fb_add_set_value (rows : List Row) (prop value : String)
    (attrib : Option (List (String × String))) : Except Err (List Row) :=
  let row : Row := [some "set", some prop, some "to", some value, some ""]
  match attrib with
  | none => testCase_add_row rows row
  | some _ =>
    if testCase_methods.contains "add_row_attrib" then testCase_add_row rows row
    else .error (.attrErr "TestCase object has no attribute add_row_attrib")

/-! ## FileBuilder (filebuilder.py) -/

/-- A row-emitting computation step: the rows appended so far, the stream
state, and the exception that interrupted the step, if any.  Rows emitted
before an exception stay in the table, exactly as appended `tr` elements
stay in the ElementTree document when a later statement raises. -/
structure BuildOut where
  rows : List Row
  rng : RNG
  err : Option Err
deriving Repr

/-- Sequencing of row-emitting steps: a raised exception skips the rest. -/
def BuildOut.andThen (a : BuildOut) (f : RNG → BuildOut) : BuildOut :=
  match a.err with
  | some _ => a
  | none =>
    let b := f a.rng
    ⟨a.rows ++ b.rows, b.rng, b.err⟩

/-- `FileBuilder.test_case_number` (filebuilder.py lines 86-94):
`str(num)` left-padded with "0" while shorter than four characters.  The
while loop runs at most four times, so fuel 4 realises it exactly. -/
def padLoopAux : Nat → String → String
  | 0, s => s
  | fuel + 1, s => if s.length < 4 then padLoopAux fuel ("0" ++ s) else s

/-- `FileBuilder.test_case_number` for test case number `num`. -/
def test_case_number (num : Nat) : String := padLoopAux 4 (natToString num)

/-- `TestTable.submission_id` (testcasetable.py lines 202-209):
"SUBMISSION-" followed by the four-digit test case number. -/
def tt_submission_id (tcn : String) : String := "SUBMISSION-" ++ tcn

/-- `FileBuilder.process_quote` (filebuilder.py lines 411-419): three rows
(check CanRequestQuote, quote, check Status Quoted) when the submission
should be quoted, nothing otherwise. -/
def fb_process_quote (root : Elem) : Except Err (List Row) :=
  match should_quote root with
  | .error e => .error e
  | .ok true => .ok
      [[some "check", some "CanRequestQuote", some "as", some "true"],
       [some "quote"],
       [some "check", some "Status", some "as", some "Quoted"]]
  | .ok false => .ok []

/-- `FileBuilder.process_bind` (filebuilder.py lines 421-429): three rows
(check CanBind, bind, check Status Bound) when the submission should be
bound, nothing otherwise. -/
def fb_process_bind (root : Elem) : Except Err (List Row) :=
  match should_bind root with
  | .error e => .error e
  | .ok true => .ok
      [[some "check", some "CanBind", some "as", some "true"],
       [some "bind"],
       [some "check", some "Status", some "as", some "Bound"]]
  | .ok false => .ok []

/-- `FileBuilder.process_question` (filebuilder.py lines 283-293): resolve
the answer with one draw and emit the answer row. -/
def fb_process_question (P : Int → Nat → Int) (question_element : Elem)
    (question_set_code : String) (g : RNG) : BuildOut :=
  match fetch_text question_element "QuestionCode" with
  | .error e => ⟨[], g, some e⟩
  | .ok question_code =>
    match fb_process_values P question_element question_code "Answer" g with
    | .error e => ⟨[], g, some e⟩
    | .ok (value, g) =>
      ⟨[[some "answer", some question_set_code, some question_code, some value]],
       g, none⟩

/-- The per-question loop of `FileBuilder.process_question_set`. -/
def fb_process_questions (P : Int → Nat → Int) (question_set_code : String) :
    List Elem → RNG → BuildOut
  | [], g => ⟨[], g, none⟩
  | q :: rest, g =>
    (fb_process_question P q question_set_code g).andThen
      (fb_process_questions P question_set_code rest)

/-- `FileBuilder.process_question_set` (filebuilder.py lines 267-281): a
question set with no Question children raises a SuiteDreamsException naming
the question set code before any row is emitted. -/
def fb_process_question_set (P : Int → Nat → Int) (question_set_element : Elem)
    (g : RNG) : BuildOut :=
  match fetch_text question_set_element "QuestionSetCode" with
  | .error e => ⟨[], g, some e⟩
  | .ok question_set_code =>
    let question_elements := elemFindAll question_set_element "Question"
    if question_elements.length = 0 then
      ⟨[], g, some (.suiteDreams
        ("Question set does not have any questions - " ++ question_set_code))⟩
    else fb_process_questions P question_set_code question_elements g

/-- `FileBuilder.process_coverage_term` (filebuilder.py lines 391-405): a
CoverageTerm with no Term children raises a SuiteDreamsException naming the
coverage term code before any row is emitted; otherwise one draw resolves
the term value and the with-row is emitted. -/
def fb_process_coverage_term (P : Int → Nat → Int) (coverage_term_element : Elem)
    (g : RNG) : BuildOut :=
  match fetch_text coverage_term_element "CoverageTermCode" with
  | .error e => ⟨[], g, some e⟩
  | .ok coverage_term_code =>
    let term_elements := elemFindAll coverage_term_element "Term"
    if term_elements.length = 0 then
      ⟨[], g, some (.suiteDreams
        ("Coverage term must have terms - " ++ coverage_term_code))⟩
    else
      match fb_process_values P coverage_term_element coverage_term_code "Term" g with
      | .error e => ⟨[], g, some e⟩
      | .ok (value, g) =>
        ⟨[[some "with", some coverage_term_code, some "to", some value]], g, none⟩

/-! ## The five table builders (testcasetable.py)

The uniqueness flags passed alongside rows only decorate the generated
`td` elements with a CSS class and are not part of the row values; they are
not modelled. -/

/-- `TestTable.public_id` for a role abbreviation. -/
def tt_public_id (sid tcn ab : String) : String := sid ++ "-" ++ tcn ++ "-" ++ ab

/-- `TestTable.test_id` for a role abbreviation. -/
def tt_test_id (sid tcn ab : String) : String := "TEST-" ++ tt_public_id sid tcn ab

/-- `CreateSubmissionTestTable.create_test_table` (testcasetable.py
lines 457-478): fixture row, heading row, then one data row whose values
are built in order (test id with the current row number 1, submission id,
account number, submission date, "true"). -/
def createSubmission_body (P : Int → Nat → Int) (root : Elem) (fx tcn : String)
    (y m d : Nat) (g : RNG) : Except Err (List Row × RNG) :=
  match suite_id root with
  | .error e => .error e
  | .ok sid =>
    let testid := tt_test_id sid tcn "CS"
    match account_number P root g with
    | .error e => .error e
    | .ok (acct, g) =>
      match submission_date P y m d root g with
      | .error e => .error e
      | .ok (sdate, g) =>
        .ok ([[some fx],
              [some "TestId", some "Submission ID", some "Account Number",
               some "Submission Date", some "Valid()"],
              [some (testid ++ "-1"), some (tt_submission_id tcn), some acct,
               some sdate, some "true"]], g)

/-- Per-question loop of `AnswerQuestionsTestTable.process_question_set`;
`rn` is the table's row number at the time each data row is created. -/
def aq_questions_loop (P : Int → Nat → Int) (testid tcn qsc : String) :
    List Elem → Nat → RNG → Except Err (List Row × Nat × RNG)
  | [], rn, g => .ok ([], rn, g)
  | q :: rest, rn, g =>
    match fetch_question_code_and_answer P q g with
    | .error e => .error e
    | .ok ((qc, answer), g) =>
      match aq_questions_loop P testid tcn qsc rest (rn + 1) g with
      | .error e => .error e
      | .ok (rows, rn, g) =>
        .ok ([some (testid ++ "-" ++ natToString rn), some (tt_submission_id tcn),
              some qsc, some qc, some answer, some "true"] :: rows, rn, g)

/-- Per-question-set loop of `AnswerQuestionsTestTable.create_rows`. -/
def aq_question_sets_loop (P : Int → Nat → Int) (testid tcn : String) :
    List Elem → Nat → RNG → Except Err (List Row × Nat × RNG)
  | [], rn, g => .ok ([], rn, g)
  | qse :: rest, rn, g =>
    match fetch_text qse "QuestionSetCode" with
    | .error e => .error e
    | .ok qsc =>
      match aq_questions_loop P testid tcn qsc (elemFindAll qse "Question") rn g with
      | .error e => .error e
      | .ok (rows1, rn, g) =>
        match aq_question_sets_loop P testid tcn rest rn g with
        | .error e => .error e
        | .ok (rows2, rn, g) => .ok (rows1 ++ rows2, rn, g)

/-- `AnswerQuestionsTestTable.create_test_table` (testcasetable.py
lines 532-585): fixture row, heading row, then one data row per Question
of every QuestionSet in document order (questions carry no inclusion
weight; only the answer is drawn). -/
def answerQuestions_body (P : Int → Nat → Int) (root : Elem) (fx tcn : String)
    (g : RNG) : Except Err (List Row × RNG) :=
  match suite_id root with
  | .error e => .error e
  | .ok sid =>
    let testid := tt_test_id sid tcn "AQ"
    match fetch_question_sets root with
    | .error e => .error e
    | .ok question_set_elements =>
      match aq_question_sets_loop P testid tcn question_set_elements 1 g with
      | .error e => .error e
      | .ok (dataRows, _rn, g) =>
        .ok ([some fx] ::
             [some "TestId", some "Submission ID", some "Question Set Code",
              some "Question Code", some "Answer", some "Valid()"] :: dataRows, g)

/-- Search loop of `UpdateDwellingTestTable.fetch_dwelling` (testcasetable.py
lines 655-668): the first Coverable whose CoverableName text equals the
fixed name HOPDwelling, or None. -/
def fetch_dwelling_loop : List Elem → Except Err (Option Elem)
  | [] => .ok none
  | c :: rest =>
    match fetch_text c "CoverableName" with
    | .error e => .error e
    | .ok coverable_name =>
      if coverable_name = "HOPDwelling" then .ok (some c)
      else fetch_dwelling_loop rest

/-- `UpdateDwellingTestTable.fetch_dwelling`. -/
def fetch_dwelling (root : Elem) : Except Err (Option Elem) :=
  match fetch_element root "Product" with
  | .error e => .error e
  | .ok product_element => fetch_dwelling_loop (elemFindAll product_element "Coverable")

/-- The assert inside `fetch_all_elements` that fires when
`fetch_dwelling` returned None and the headings or values pass hands that
None on as the parent element. -/
def noDwellingErr : Err :=
  .assertErr "fetch_all_element: Parent of element Property must not be None"

/-- `UpdateDwellingTestTable.create_test_table` (testcasetable.py
lines 630-684): fixture row; a heading row extended by one entry per
Property of the dwelling coverable (the entry is the name component of
`process_property`, hence None for an unselected property); then exactly
one data row built by a second, independent pass over the same properties
keeping the value components. -/
def updateDwelling_body (P : Int → Nat → Int) (root : Elem) (fx tcn : String)
    (g : RNG) : Except Err (List Row × RNG) :=
  match suite_id root with
  | .error e => .error e
  | .ok sid =>
    let testid := tt_test_id sid tcn "UD"
    match fetch_dwelling root with
    | .error e => .error e
    | .ok none => .error noDwellingErr
    | .ok (some coverable_element) =>
      match fetch_property_headings P coverable_element g with
      | .error e => .error e
      | .ok (headings, g) =>
        match fetch_dwelling root with
        | .error e => .error e
        | .ok none => .error noDwellingErr
        | .ok (some coverable_element2) =>
          match fetch_property_values P coverable_element2 g with
          | .error e => .error e
          | .ok (property_values, g) =>
            .ok ([some fx] ::
                 ([some "TestId", some "Submission ID"] ++ headings ++ [some "Valid()"]) ::
                 [([some testid, some (tt_submission_id tcn)] ++ property_values ++
                   [some "true"])], g)

/-- `QuiteIssueTestTable.create_test_table` (testcasetable.py
lines 730-751): fixture row, heading row and one unconditional data row
with Quote() and Issue() both "true"; nothing in the builder consults the
Policy block. -/
def quoteIssue_body (root : Elem) (fx tcn : String) (g : RNG) :
    Except Err (List Row × RNG) :=
  match suite_id root with
  | .error e => .error e
  | .ok sid =>
    let testid := tt_test_id sid tcn "QI"
    .ok ([[some fx],
          [some "TestId", some "Submission ID", some "Quote()", some "Issue()"],
          [some testid, some (tt_submission_id tcn), some "true", some "true"]], g)

/-- State of the CreateCoverages action-table generation: rows emitted so
far, the stream, the coverage counter and the interrupting exception, if
any. -/
structure CCSt where
  rows : List Row
  rng : RNG
  cnt : Nat
  err : Option Err
deriving Repr

/-- `CreateCoveragesTestTable.process_coverage_term` (testcasetable.py
lines 1001-1015): one draw resolves the term value; the with-row carries
the code and the value. -/
def cc_process_coverage_term (P : Int → Nat → Int) (cov_term_element : Elem)
    (g : RNG) : BuildOut :=
  match fetch_text cov_term_element "CoverageTermCode" with
  | .error e => ⟨[], g, some e⟩
  | .ok coverage_term_code =>
    match fetch_coverage_term_value P cov_term_element g with
    | .error e => ⟨[], g, some e⟩
    | .ok (term_value, g) =>
      if term_value.length = 0 then
        ⟨[], g, some (.assertErr
          ("Term value must not be empty for coverage term: " ++ coverage_term_code))⟩
      else ⟨[[some "with", some coverage_term_code, some term_value, some ""]], g, none⟩

/-- Per-term loop inside `CreateCoveragesTestTable.process_coverage`. -/
def cc_coverage_terms_loop (P : Int → Nat → Int) :
    List Elem → RNG → BuildOut
  | [], g => ⟨[], g, none⟩
  | ct :: rest, g =>
    (cc_process_coverage_term P ct g).andThen (cc_coverage_terms_loop P rest)

/-- `CreateCoveragesTestTable.process_coverage` (testcasetable.py
lines 980-999): bump the coverage counter, emit the create-coverage row,
then the with-rows of all its CoverageTerm children. -/
def cc_process_coverage (P : Int → Nat → Int) (testid : String)
    (coverage_element : Elem) (g : RNG) (cnt : Nat) : CCSt :=
  let cnt := cnt + 1
  match fetch_text coverage_element "CoverageCode" with
  | .error e => ⟨[], g, cnt, some e⟩
  | .ok coverage_code =>
    let createRow : Row :=
      [some "create", some "coverage", some (testid ++ "-" ++ natToString cnt),
       some coverage_code]
    let terms := cc_coverage_terms_loop P
      (elemFindAll coverage_element "CoverageTerm") g
    ⟨createRow :: terms.rows, terms.rng, cnt, terms.err⟩

/-- Per-coverage loop inside `CreateCoveragesTestTable.process_coverables`. -/
def cc_coverages_loop (P : Int → Nat → Int) (testid : String) :
    List Elem → RNG → Nat → CCSt
  | [], g, cnt => ⟨[], g, cnt, none⟩
  | cvg :: rest, g, cnt =>
    let first := cc_process_coverage P testid cvg g cnt
    match first.err with
    | some _ => first
    | none =>
      let next := cc_coverages_loop P testid rest first.rng first.cnt
      ⟨first.rows ++ next.rows, next.rng, next.cnt, next.err⟩

/-- `CreateCoveragesTestTable.process_coverables` (testcasetable.py
lines 959-978): the select-coverable row is emitted first; only then are
the weight-selected coverages fetched, and an empty selection fails the
assert (an AssertionError, not a SuiteDreamsException) naming the
coverable. -/
def cc_process_coverables (P : Int → Nat → Int) (testid : String)
    (coverable_element : Elem) (g : RNG) (cnt : Nat) : CCSt :=
  match fetch_text coverable_element "CoverableName" with
  | .error e => ⟨[], g, cnt, some e⟩
  | .ok coverable_name =>
    let selectRow : Row := [some "select", some "coverable", some coverable_name, some ""]
    match fetch_coverages P coverable_element g with
    | .error e => ⟨[selectRow], g, cnt, some e⟩
    | .ok (coverage_elements, g) =>
      if coverage_elements.length = 0 then
        ⟨[selectRow], g, cnt,
         some (.assertErr ("Coverable must have coverages: " ++ coverable_name))⟩
      else
        let rest := cc_coverages_loop P testid coverage_elements g cnt
        ⟨selectRow :: rest.rows, rest.rng, rest.cnt, rest.err⟩

/-- Per-coverable loop inside
`CreateCoveragesTestTable.create_test_table`. -/
def cc_coverables_loop (P : Int → Nat → Int) (testid : String) :
    List Elem → RNG → Nat → CCSt
  | [], g, cnt => ⟨[], g, cnt, none⟩
  | cvb :: rest, g, cnt =>
    let first := cc_process_coverables P testid cvb g cnt
    match first.err with
    | some _ => first
    | none =>
      let next := cc_coverables_loop P testid rest first.rng first.cnt
      ⟨first.rows ++ next.rows, next.rng, next.cnt, next.err⟩

/-- `CreateCoveragesTestTable.create_test_table` (testcasetable.py
lines 931-957): fixture row, set-TestId row, select-submission row, then
the rows of every selected coverable, then one trailing commit row. -/
def createCoverages_body (P : Int → Nat → Int) (root : Elem) (fx tcn : String)
    (g : RNG) : CCSt :=
  match suite_id root with
  | .error e => ⟨[], g, 0, some e⟩
  | .ok sid =>
    let testid := tt_test_id sid tcn "CC"
    let fixtureRow : Row := [some fx]
    -- set_property asserts a non-empty property value
    if testid.length = 0 then
      ⟨[fixtureRow], g, 0, some (.assertErr "Property value must not be empty")⟩
    else
      let setRow : Row := [some "set", some "TestId", some testid, some ""]
      let selectRow : Row :=
        [some "select", some "submission", some (tt_submission_id tcn), some ""]
      match fetch_coverables P root g with
      | .error e => ⟨[fixtureRow, setRow, selectRow], g, 0, some e⟩
      | .ok (coverable_elements, g) =>
        if coverable_elements.length = 0 then
          ⟨[fixtureRow, setRow, selectRow], g, 0,
           some (.assertErr "Product must have at least one coverable")⟩
        else
          let body := cc_coverables_loop P testid coverable_elements g 0
          match body.err with
          | some e => ⟨[fixtureRow, setRow, selectRow] ++ body.rows, body.rng, body.cnt, some e⟩
          | none =>
            ⟨[fixtureRow, setRow, selectRow] ++ body.rows ++
             [[some "commit", some "", some "", some ""]], body.rng, body.cnt, none⟩

/-- `create_test_tables` (testcasetable.py lines 36-55): the five table
objects are constructed first — each constructor resolving its fixture —
and then each table's rows are generated in the fixed order
CreateSubmission, AnswerQuestions, UpdateDwelling, CreateCoverages,
QuoteIssue.  The QuoteIssue table is in the list unconditionally.  On an
exception the run aborts and no suite is produced, so the result is the
role-tagged tables of a completed generation. -/
def create_test_tables (P : Int → Nat → Int) (root : Elem) (tcn : String)
    (y m d : Nat) (g : RNG) : Except Err (List (String × List Row) × RNG) :=
  match fetch_fixture root "CreateSubmission" with
  | .error e => .error e
  | .ok none => .error (.assertErr "Unable to retrieve fixture for role: CreateSubmission")
  | .ok (some fxCS) =>
    match fetch_fixture root "AnswerQuestions" with
    | .error e => .error e
    | .ok none => .error (.assertErr "Unable to retrieve fixture for role: AnswerQuestions")
    | .ok (some fxAQ) =>
      match fetch_fixture root "UpdateDwelling" with
      | .error e => .error e
      | .ok none => .error (.assertErr "Unable to retrieve fixture for role: UpdateDwelling")
      | .ok (some fxUD) =>
        match fetch_fixture root "CreateCoverages" with
        | .error e => .error e
        | .ok none => .error (.assertErr "fixture package must not be None")
        | .ok (some fxCC) =>
          match fetch_fixture root "QuoteIssue" with
          | .error e => .error e
          | .ok none => .error (.assertErr "Unable to retrieve fixture for role: QuoteIssue")
          | .ok (some fxQI) =>
            match createSubmission_body P root fxCS tcn y m d g with
            | .error e => .error e
            | .ok (r1, g) =>
              match answerQuestions_body P root fxAQ tcn g with
              | .error e => .error e
              | .ok (r2, g) =>
                match updateDwelling_body P root fxUD tcn g with
                | .error e => .error e
                | .ok (r3, g) =>
                  match createCoverages_body P root fxCC tcn g with
                  | ⟨_, _, _, some e⟩ => .error e
                  | ⟨r4, g4, _, none⟩ =>
                    match quoteIssue_body root fxQI tcn g4 with
                    | .error e => .error e
                    | .ok (r5, g) =>
                      .ok ([("CreateSubmission", r1),
                            ("AnswerQuestions", r2),
                            ("UpdateDwelling", r3),
                            ("CreateCoverages", r4),
                            ("QuoteIssue", r5)], g)

/-! ## Helper definitions for the claim statements -/

deriving instance DecidableEq for Except

/-- The weight of an element whose weight attribute validates (0 when it
does not; the claims use it only under a validity hypothesis). -/
def weightOf (e : Elem) : Int :=
  match fetch_weight e with
  | .ok w => w
  | .error _ => 0

/-- Total cumulative weight of a candidate list. -/
def totalWeight (l : List Elem) : Int := (l.map weightOf).sum

/-- The (weight, value) candidate view of a list of value elements. -/
def candidates (l : List Elem) : List (Int × String) :=
  l.map (fun e => (weightOf e, e.text))

/-- Every element of the list carries a valid weight attribute. -/
abbrev WeightsValid (l : List Elem) : Prop :=
  ∀ e ∈ l, fetch_weight e = .ok (weightOf e)

/-- The tables of a completed suite generation for one scenario (empty when
generation aborted with an exception). -/
def run_tables (P : Int → Nat → Int) (root : Elem) (tcn : String)
    (y mo d : Nat) (g : RNG) : List (String × List Row) :=
  match create_test_tables P root tcn y mo d g with
  | .ok (ts, _) => ts
  | .error _ => []

/-- The roles of the tables of a completed suite generation, in emission
order. -/
def run_roles (P : Int → Nat → Int) (root : Elem) (tcn : String)
    (y mo d : Nat) (g : RNG) : List String :=
  (run_tables P root tcn y mo d g).map Prod.fst

/-- The cells of a generated table that hold the submission identifier:
the third cell of the select-submission row for the action table, the
second cell of every data row for the column tables. -/
def submission_cells (role : String) (rows : List Row) : List Cell :=
  if role = "CreateCoverages" then
    ((rows.drop 2).take 1).map (fun r => r.getD 2 none)
  else
    (rows.drop 2).map (fun r => r.getD 1 none)

/-- A generator whose every draw is 1 (an admissible `randint(1, 100)`
outcome), used for concrete evaluations. -/
def Pone : Int → Nat → Int := fun _ _ => 1

/-- A concrete Fixture element. -/
def fixElem (role fc : String) : Elem :=
  .node "Fixture" [] "" [.node "Role" [] role [], .node "FixtureClass" [] fc []]

/-- A concrete weighted Property element with a single Value. -/
def propElem (name value : String) : Elem :=
  .node "Property" [] "" [.node "PropertyName" [] name [], .node "Value" [] value []]

/-- A concrete product specification whose Policy block carries neither a
Quote nor a Bind marker, with the five fixtures, an AccountNumber policy
property, and an HOPDwelling coverable (default weights 100) holding one
property and one coverage. -/
def specNoQB : Elem :=
  .node "TestSuite" [] ""
    [.node "SuiteId" [] "HOP" [],
     .node "Fixtures" [] ""
       [fixElem "CreateSubmission" "fix.CS", fixElem "AnswerQuestions" "fix.AQ",
        fixElem "UpdateDwelling" "fix.UD", fixElem "CreateCoverages" "fix.CC",
        fixElem "QuoteIssue" "fix.QI"],
     .node "Policy" [] "" [propElem "AccountNumber" "A-100"],
     .node "Product" [] ""
       [.node "ProductCode" [] "HOP" [],
        .node "Coverable" [] ""
          [.node "CoverableName" [] "HOPDwelling" [],
           propElem "RoofType" "Asphalt",
           .node "Coverage" [] "" [.node "CoverageCode" [] "HODW" []]]]]

/-- An HOPDwelling coverable with one Property of weight 0 (never included
by any draw in [1, 100]). -/
def dwellingW0 : Elem :=
  .node "Coverable" [] ""
    [.node "CoverableName" [] "HOPDwelling" [],
     .node "Property" [("weight", "0")] ""
       [.node "PropertyName" [] "RoofType" [],
        .node "Value" [] "Asphalt" []]]

/-- A TestSuite whose HOPDwelling coverable has one Property with weight 0. -/
def specDwellingW0 : Elem :=
  .node "TestSuite" [] ""
    [.node "SuiteId" [] "HOP" [],
     .node "Product" [] "" [dwellingW0]]

/-- A Policy block carrying only a Bind marker. -/
def specBindOnly : Elem :=
  .node "TestSuite" [] ""
    [.node "Policy" [] "" [.node "Bind" [] "" []]]

/-- A QuestionSet with a code and no Question children. -/
def emptyQuestionSet : Elem :=
  .node "QuestionSet" [] "" [.node "QuestionSetCode" [] "QS1" []]

/-- A CoverageTerm with a code and no Term children. -/
def emptyCoverageTerm : Elem :=
  .node "CoverageTerm" [] "" [.node "CoverageTermCode" [] "HODW_Limit" []]

/-- A Coverable with a name and no Coverage children. -/
def coverableNoCoverages : Elem :=
  .node "Coverable" [] ""
    [.node "CoverableName" [] "Dwell" [], propElem "RoofType" "Asphalt"]

/-- The amended C4 column semantics, stated in the amended claim's own
words: one column per Property in document order; for each property, one
inclusion draw is made from the stream — when the drawn value is at most
the property's weight the property is included, a second draw resolves its
value through the alternative-selection scan and the column carries
(name, value); otherwise the column carries (None, None).  The actual draw
positions are threaded through the stream state exactly as in the engine,
so a column's presence and content are determined by that pass's own
draws. -/
def dwellingColumnsRef (P : Int → Nat → Int) :
    List Elem → RNG → Except Err (List (Option String × Option String) × RNG)
  | [], g => .ok ([], g)
  | p :: rest, g =>
    match fetch_text p "PropertyName" with
    | .error e => .error e
    | .ok name =>
      let (sel, g) := random_selector P g
      match fetch_weight p with
      | .error e => .error e
      | .ok w =>
        if sel ≤ w then
          let (sel2, g) := random_selector P g
          match process_values p name "Value" sel2 with
          | .error e => .error e
          | .ok v =>
            match dwellingColumnsRef P rest g with
            | .error e => .error e
            | .ok (cols, g) => .ok ((some name, some v) :: cols, g)
        else
          match dwellingColumnsRef P rest g with
          | .error e => .error e
          | .ok (cols, g) => .ok ((none, none) :: cols, g)

/-! ## Decoding decimal strings (proof machinery for the identifiers) -/

/-- Read a most-significant-digit-first character list back as a number. -/
def decodeAux : Nat → List Char → Nat
  | acc, [] => acc
  | acc, c :: cs => decodeAux (acc * 10 + (c.toNat - 48)) cs

/-- Read a string of decimal digits back as a number. -/
def decodeStr (s : String) : Nat := decodeAux 0 s.data

theorem decodeAux_nil (acc : Nat) : decodeAux acc [] = acc := rfl

theorem decodeAux_cons (acc : Nat) (c : Char) (cs : List Char) :
    decodeAux acc (c :: cs) = decodeAux (acc * 10 + (c.toNat - 48)) cs := rfl

theorem natToStringAux_zero (n : Nat) : natToStringAux 0 n = "" := rfl

theorem natToStringAux_succ (fuel n : Nat) :
    natToStringAux (fuel + 1) n =
      if n < 10 then String.mk [digitChr n]
      else natToStringAux fuel (n / 10) ++ String.mk [digitChr (n % 10)] := rfl

theorem padLoopAux_zero (s : String) : padLoopAux 0 s = s := rfl

theorem padLoopAux_succ (fuel : Nat) (s : String) :
    padLoopAux (fuel + 1) s =
      if s.length < 4 then padLoopAux fuel ("0" ++ s) else s := rfl

theorem decodeAux_append (l1 l2 : List Char) :
    ∀ acc, decodeAux acc (l1 ++ l2) = decodeAux (decodeAux acc l1) l2 := by
  induction l1 with
  | nil => intro acc; rfl
  | cons c cs ih =>
    intro acc
    rw [List.cons_append, decodeAux_cons, decodeAux_cons]
    exact ih _

theorem digitChr_toNat (n : Nat) (h : n < 10) : (digitChr n).toNat = 48 + n := by
  interval_cases n <;> rfl

theorem natToStringAux_decode :
    ∀ (f n acc : Nat), n < 10 ^ f →
      decodeAux acc (natToStringAux f n).data =
        acc * 10 ^ (natToStringAux f n).data.length + n := by
  intro f
  induction f with
  | zero =>
    intro n acc h
    simp only [pow_zero, Nat.lt_one_iff] at h
    subst h
    rw [natToStringAux_zero]
    show decodeAux acc [] = acc * 10 ^ ([] : List Char).length + 0
    rw [decodeAux_nil]
    simp
  | succ f ih =>
    intro n acc h
    by_cases hn : n < 10
    · rw [natToStringAux_succ]
      simp only [hn, if_true]
      show decodeAux acc [digitChr n] = acc * 10 ^ ([digitChr n].length) + n
      rw [decodeAux_cons, decodeAux_nil, digitChr_toNat n hn]
      simp only [List.length_singleton, pow_one]
      omega
    · rw [natToStringAux_succ]
      simp only [hn, if_false]
      rw [String.data_append, decodeAux_append]
      have hdiv : n / 10 < 10 ^ f := by
        rw [Nat.div_lt_iff_lt_mul (by norm_num)]
        calc n < 10 ^ (f + 1) := h
        _ = 10 ^ f * 10 := by rw [pow_succ]
      rw [ih (n / 10) acc hdiv]
      show decodeAux (acc * 10 ^ (natToStringAux f (n / 10)).data.length + n / 10)
          [digitChr (n % 10)] =
        acc * 10 ^ ((natToStringAux f (n / 10)).data ++ [digitChr (n % 10)]).length + n
      rw [List.length_append, decodeAux_cons, decodeAux_nil]
      rw [digitChr_toNat (n % 10) (Nat.mod_lt _ (by norm_num))]
      simp only [List.length_singleton]
      rw [pow_succ, ← mul_assoc]
      have hmod := Nat.div_add_mod n 10
      generalize acc * 10 ^ (natToStringAux f (n / 10)).data.length = s
      omega

theorem padLoopAux_decode : ∀ (f : Nat) (s : String),
    decodeAux 0 (padLoopAux f s).data = decodeAux 0 s.data := by
  intro f
  induction f with
  | zero => intro s; rfl
  | succ f ih =>
    intro s
    rw [padLoopAux_succ]
    by_cases h : s.length < 4
    · simp only [h, if_true]
      rw [ih]
      show decodeAux 0 ('0' :: s.data) = decodeAux 0 s.data
      rfl
    · simp [h]

theorem decodeStr_test_case_number (n : Nat) : decodeStr (test_case_number n) = n := by
  unfold decodeStr test_case_number natToString
  rw [padLoopAux_decode]
  have hlt : n < 10 ^ (n + 1) :=
    lt_of_lt_of_le (Nat.lt_pow_self (by norm_num) n)
      (Nat.pow_le_pow_right (by norm_num) (Nat.le_succ n))
  have := natToStringAux_decode (n + 1) n 0 hlt
  simpa using this

theorem test_case_number_inj {m n : Nat}
    (h : test_case_number m = test_case_number n) : m = n := by
  have h2 := congrArg decodeStr h
  rwa [decodeStr_test_case_number, decodeStr_test_case_number] at h2

theorem natToStringAux_length_le :
    ∀ (f k n : Nat), 1 ≤ k → n < 10 ^ k → (natToStringAux f n).length ≤ k := by
  intro f
  induction f with
  | zero =>
    intro k n h1 _
    rw [natToStringAux_zero]
    show 0 ≤ k
    omega
  | succ f ih =>
    intro k n h1 h2
    rw [natToStringAux_succ]
    by_cases hn : n < 10
    · simp only [hn, if_true]
      show ([digitChr n].length) ≤ k
      simpa using h1
    · simp only [hn, if_false]
      rw [String.length_append]
      have hk : 2 ≤ k := by
        rcases Nat.lt_or_ge k 2 with hk2 | hk2
        · interval_cases k
          · simp only [pow_one] at h2; omega
        · exact hk2
      have hdiv : n / 10 < 10 ^ (k - 1) := by
        rw [Nat.div_lt_iff_lt_mul (by norm_num)]
        calc n < 10 ^ k := h2
        _ = 10 ^ (k - 1) * 10 := by
            conv_lhs => rw [show k = (k - 1) + 1 by omega]
            rw [pow_succ]
      have hrec := ih (k - 1) (n / 10) (by omega) hdiv
      have hone : (String.mk [digitChr (n % 10)]).length = 1 := rfl
      omega

theorem padLoopAux_length : ∀ (f : Nat) (s : String), 4 - s.length ≤ f →
    (padLoopAux f s).length = max 4 s.length := by
  intro f
  induction f with
  | zero => intro s h; rw [padLoopAux_zero]; omega
  | succ f ih =>
    intro s h
    rw [padLoopAux_succ]
    by_cases hlt : s.length < 4
    · simp only [hlt, if_true]
      have hzs : ("0" ++ s).length = 1 + s.length := by
        rw [String.length_append]; rfl
      rw [ih ("0" ++ s) (by omega)]
      omega
    · simp only [hlt, if_false]
      omega

theorem test_case_number_length {n : Nat} (h : n ≤ 9999) :
    (test_case_number n).length = 4 := by
  unfold test_case_number natToString
  have h4 : n < 10 ^ 4 := by norm_num; omega
  have hlen : (natToStringAux (n + 1) n).length ≤ 4 :=
    natToStringAux_length_le (n + 1) 4 n (by norm_num) h4
  rw [padLoopAux_length 4 _ (by omega)]
  omega

/-! ## Claims -/

/-- Claim C10: the claim states that `current_date` always returns the date
in the form YYYY-MM-DD.  The code contradicts its own docstring: for months
of two digits the hyphen between month and day is omitted, so October 12,
2026 renders as "2026-1012" rather than "2026-10-12".  The malformed string
is exactly what `submission_date` substitutes for an absent or unselected
SubmissionDate property. -/
theorem C10_current_date_format :
    current_date 2026 10 12 = "2026-1012" ∧
    "2026-1012" ≠ "2026-10-12" ∧
    current_date 2026 9 5 = "2026-09-05" ∧
    submission_date Pone 2026 10 12 specNoQB ⟨7, 0⟩ = .ok ("2026-1012", ⟨7, 2⟩) := by
  refine ⟨rfl, by decide, rfl, rfl⟩

/-- Claim C9: the claim states that `add_set_value` called with a non-None
attribute dictionary invokes an operation that exists on TestCase.  It does
not: TestCase defines `add_row` but no `add_row_attrib`, so the PublicID
row that `process_policy` unconditionally emits with the uniqueness
attribute raises AttributeError, while the attribute-free branch works. -/
theorem C9_add_row_attrib_missing :
    fb_add_set_value [] "PublicID" "HOP-0001" (some [("class", "unique")]) =
      .error (.attrErr "TestCase object has no attribute add_row_attrib") ∧
    testCase_methods.contains "add_row_attrib" = false ∧
    testCase_methods.contains "add_row" = true ∧
    fb_add_set_value [] "Test Id" "TEST-HOP-0001" none =
      .ok [[some "set", some "Test Id", some "to", some "TEST-HOP-0001", some ""]] := by
  refine ⟨rfl, by decide, by decide, rfl⟩

/-- Claim C1, counterexample: the claim states the pseudo-random stream is
seeded exactly once from the Specification's seed and never reset per test
case.  In the code, every `FileBuilder.__init__` — run once per test case
by the main loop — reseeds the module stream, discarding the position the
previous test case reached (here: position 7 after seed 42 collapses back
to position 0); and the Specification Model's own Random instance is
seeded from entropy, not from the specification seed at all. -/
theorem C1_counterexample :
    fileBuilder_init_rng 42 ⟨42, 7⟩ = python_seed 42 ∧
    (⟨42, 7⟩ : RNG) ≠ python_seed 42 ∧
    schemaHandler_init_rng 99 ≠ python_seed 42 ∧
    schemaHandler_init_rng 99 ≠ schemaHandler_init_rng 7 := by
  refine ⟨rfl, by decide, by decide, by decide⟩

/-- Claim C1, amended: the module-level stream is re-seeded with the
specification's seed at every FileBuilder construction, i.e. at the start
of every test case, so each test case begins from the identical stream
state determined by the seed alone (making the FileBuilder-side draws
reproducible — and identical across the test cases of one run); the
SchemaHandler's own Random instance starts from operating-system entropy,
independent of the specification seed. -/
theorem C1_amended (seed : Int) (g1 g2 : RNG) (entropy : Int) :
    fileBuilder_init_rng seed g1 = python_seed seed ∧
    fileBuilder_init_rng seed g1 = fileBuilder_init_rng seed g2 ∧
    schemaHandler_init_rng entropy = ⟨entropy, 0⟩ :=
  ⟨rfl, rfl, rfl⟩

/-- Claim C8: for every drawn selector in [1, 100] and every element whose
weight attribute validates to w, the inclusion test returns true iff the
selector is at most w; in particular weight 0 always excludes and weight
100 always includes. -/
theorem C8_select_element (e : Elem) (w selector : Int)
    (hw : fetch_weight e = .ok w) (h1 : 1 ≤ selector) (h100 : selector ≤ 100) :
    select_element e selector = .ok (decide (selector ≤ w)) ∧
    (w = 0 → select_element e selector = .ok false) ∧
    (w = 100 → select_element e selector = .ok true) := by
  have hmain : select_element e selector = .ok (decide (selector ≤ w)) := by
    unfold select_element
    rw [hw]
  refine ⟨hmain, ?_, ?_⟩
  · intro h0
    subst h0
    rw [hmain]
    have : ¬ (selector ≤ (0 : Int)) := by omega
    simp [this]
  · intro h100w
    subst h100w
    rw [hmain]
    have : selector ≤ (100 : Int) := h100
    simp [this]

/-- Witness for C8 at weight 0 (attribute "0"), weight 100 (attribute
absent, default), and selector 57. -/
theorem C8_witness :
    select_element (Elem.node "Value" [("weight", "0")] "Low" []) 57 = .ok false ∧
    select_element (Elem.node "Value" [] "High" []) 57 = .ok true := by
  constructor
  · exact (C8_select_element (Elem.node "Value" [("weight", "0")] "Low" []) 0 57
      rfl (by norm_num) (by norm_num)).2.1 rfl
  · exact (C8_select_element (Elem.node "Value" [] "High" []) 100 57
      rfl (by norm_num) (by norm_num)).2.2 rfl

/-- Claim C5: a Policy block that carries a Bind marker (whether or not a
Quote marker is present) still quotes: `should_quote` is true and the
quote rows are emitted together with the bind rows. -/
theorem C5_bind_implies_quote (root policy : Elem)
    (hp : fetch_element root "Policy" = .ok policy)
    (hb : has_element policy "Bind" = true) :
    should_quote root = .ok true ∧
    should_bind root = .ok true ∧
    fb_process_quote root = .ok
      [[some "check", some "CanRequestQuote", some "as", some "true"],
       [some "quote"],
       [some "check", some "Status", some "as", some "Quoted"]] ∧
    fb_process_bind root = .ok
      [[some "check", some "CanBind", some "as", some "true"],
       [some "bind"],
       [some "check", some "Status", some "as", some "Bound"]] := by
  have hq : should_quote root = .ok true := by
    unfold should_quote
    rw [hp]
    show Except.ok (has_element policy "Quote" || has_element policy "Bind") = .ok true
    rw [hb]
    simp
  have hbd : should_bind root = .ok true := by
    unfold should_bind
    rw [hp]
    show Except.ok (has_element policy "Bind") = .ok true
    rw [hb]
  refine ⟨hq, hbd, ?_, ?_⟩
  · unfold fb_process_quote
    rw [hq]
  · unfold fb_process_bind
    rw [hbd]

theorem process_values_loop_nil (pname ename : String) (selector acc : Int) :
    process_values_loop pname ename selector acc [] = .error (.suiteDreams
      ("No values were selected for - " ++ pname ++
       ". Element being searched is - " ++ ename)) := rfl

theorem process_values_loop_cons (pname ename : String) (selector acc : Int)
    (v : Elem) (rest : List Elem) :
    process_values_loop pname ename selector acc (v :: rest) =
      (match fetch_weight v with
       | .error e => .error e
       | .ok w =>
         if selector ≤ acc + w then .ok v.text
         else process_values_loop pname ename selector (acc + w) rest) := rfl

theorem chooseAlternative_nil (selector acc : Int) :
    chooseAlternative selector acc [] = none := rfl

theorem chooseAlternative_cons (selector acc w : Int) (v : String)
    (rest : List (Int × String)) :
    chooseAlternative selector acc ((w, v) :: rest) =
      if selector ≤ acc + w then some v
      else chooseAlternative selector (acc + w) rest := rfl

theorem candidates_nil : candidates [] = [] := rfl

theorem candidates_cons (e : Elem) (rest : List Elem) :
    candidates (e :: rest) = (weightOf e, e.text) :: candidates rest := rfl

theorem totalWeight_nil : totalWeight [] = 0 := rfl

theorem totalWeight_cons (e : Elem) (rest : List Elem) :
    totalWeight (e :: rest) = weightOf e + totalWeight rest := by
  unfold totalWeight
  simp

theorem fetch_weight_ok_bounds {e : Elem} {w : Int}
    (h : fetch_weight e = .ok w) : 0 ≤ w ∧ w ≤ 100 := by
  unfold fetch_weight at h
  cases hp : parseInt? (e.get "weight" "100") with
  | none => rw [hp] at h; exact absurd h (by simp)
  | some v =>
    rw [hp] at h
    by_cases hb : v < 0 ∨ 100 < v
    · simp only [hb, if_true] at h
      exact absurd h (by simp)
    · simp only [hb, if_false, Except.ok.injEq] at h
      push_neg at hb
      omega

theorem WeightsValid_tail {e : Elem} {rest : List Elem}
    (h : WeightsValid (e :: rest)) : WeightsValid rest :=
  fun x hx => h x (by simp [hx])

theorem totalWeight_nonneg : ∀ (l : List Elem), WeightsValid l → 0 ≤ totalWeight l := by
  intro l
  induction l with
  | nil => intro _; rw [totalWeight_nil]
  | cons e rest ih =>
    intro hv
    rw [totalWeight_cons]
    have h1 := (fetch_weight_ok_bounds (hv e (by simp))).1
    have h2 := ih (WeightsValid_tail hv)
    omega

theorem process_values_loop_spec (pname ename : String) (selector : Int) :
    ∀ (l : List Elem) (acc : Int), WeightsValid l →
      process_values_loop pname ename selector acc l =
        (match chooseAlternative selector acc (candidates l) with
         | some v => .ok v
         | none => .error (.suiteDreams
             ("No values were selected for - " ++ pname ++
              ". Element being searched is - " ++ ename))) := by
  intro l
  induction l with
  | nil => intro acc _; rfl
  | cons e rest ih =>
    intro acc hv
    have he : fetch_weight e = .ok (weightOf e) := hv e (by simp)
    rw [process_values_loop_cons, he, candidates_cons, chooseAlternative_cons]
    by_cases hle : selector ≤ acc + weightOf e
    · simp only [hle, if_true]
    · simp only [hle, if_false]
      exact ih (acc + weightOf e) (WeightsValid_tail hv)

theorem chooseAlternative_none_iff (selector : Int) :
    ∀ (l : List Elem) (acc : Int), WeightsValid l → acc < selector →
      (chooseAlternative selector acc (candidates l) = none ↔
        acc + totalWeight l < selector) := by
  intro l
  induction l with
  | nil =>
    intro acc _ hacc
    rw [candidates_nil, chooseAlternative_nil, totalWeight_nil]
    simp
    omega
  | cons e rest ih =>
    intro acc hv hacc
    have he : fetch_weight e = .ok (weightOf e) := hv e (by simp)
    have hb := fetch_weight_ok_bounds he
    have hrest : 0 ≤ totalWeight rest := totalWeight_nonneg rest (WeightsValid_tail hv)
    rw [candidates_cons, chooseAlternative_cons, totalWeight_cons]
    by_cases hle : selector ≤ acc + weightOf e
    · simp only [hle, if_true]
      constructor
      · intro h; exact absurd h (by simp)
      · intro h; omega
    · simp only [hle, if_false]
      rw [ih (acc + weightOf e) (WeightsValid_tail hv) (by omega)]
      omega

/-- Claim C2: given validated candidate weights and a drawn selector of at
least 1, the value-selection scan of `process_values` equals the
specification's `chooseAlternative` (the first candidate whose cumulative
weight sum reaches the selector); it raises the selection-exhausted
SuiteDreamsException if and only if the selector exceeds the total
cumulative weight, and in particular never raises when the weights sum to
exactly 100 and the selector lies in [1, 100]. -/
theorem C2_process_values (pe : Elem) (pname ename : String) (selector : Int)
    (hv : WeightsValid (elemFindAll pe ename)) (h1 : 1 ≤ selector) :
    (process_values pe pname ename selector =
       (match chooseAlternative selector 0 (candidates (elemFindAll pe ename)) with
        | some v => .ok v
        | none => .error (.suiteDreams
            ("No values were selected for - " ++ pname ++
             ". Element being searched is - " ++ ename)))) ∧
    (chooseAlternative selector 0 (candidates (elemFindAll pe ename)) = none ↔
       totalWeight (elemFindAll pe ename) < selector) ∧
    (totalWeight (elemFindAll pe ename) = 100 → selector ≤ 100 →
       ∃ v, process_values pe pname ename selector = .ok v) := by
  have hmain := process_values_loop_spec pname ename selector (elemFindAll pe ename) 0 hv
  have hiff := chooseAlternative_none_iff selector (elemFindAll pe ename) 0 hv (by omega)
  simp only [zero_add] at hiff
  refine ⟨hmain, hiff, ?_⟩
  intro htot hle
  have hne : chooseAlternative selector 0 (candidates (elemFindAll pe ename)) ≠ none := by
    intro hc
    rw [hiff] at hc
    omega
  cases hc : chooseAlternative selector 0 (candidates (elemFindAll pe ename)) with
  | none => exact absurd hc hne
  | some v =>
    refine ⟨v, ?_⟩
    unfold process_values
    rw [hmain, hc]

/-- Witness for C2: two candidates of weights 60 and 40 and selector 75
pick the second candidate, and the weights cover [1, 100]. -/
theorem C2_witness :
    process_values
      (Elem.node "Property" [] ""
        [Elem.node "Value" [("weight", "60")] "A" [],
         Elem.node "Value" [("weight", "40")] "B" []])
      "RoofType" "Value" 75 = .ok "B" := by
  obtain ⟨hmain, _hiff, _hcov⟩ := C2_process_values
    (Elem.node "Property" [] ""
      [Elem.node "Value" [("weight", "60")] "A" [],
       Elem.node "Value" [("weight", "40")] "B" []])
    "RoofType" "Value" 75 (by decide) (by norm_num)
  rw [hmain]
  rfl

/-- Claim C3, counterexample: the claim states that the QuoteIssue table is
emitted only when the Policy block carries a Quote or Bind marker.  For the
concrete specification `specNoQB`, whose Policy has neither marker
(`should_quote` is false), the completed scenario still contains the
QuoteIssue table: `create_test_tables` constructs and formats all five
tables unconditionally. -/
theorem C3_counterexample :
    should_quote specNoQB = .ok false ∧
    run_roles Pone specNoQB "0001" 2026 1 5 ⟨7, 0⟩ =
      ["CreateSubmission", "AnswerQuestions", "UpdateDwelling",
       "CreateCoverages", "QuoteIssue"] :=
  ⟨rfl, rfl⟩

/-- Claim C3, amended: the table-based generator emits the QuoteIssue table
in every successfully generated scenario, regardless of the Policy
markers (every completed run carries exactly the five roles, QuoteIssue
included); it is only the FileBuilder generator's quote step that is
guarded by the markers — its quote rows are emitted iff the Policy block
carries a Quote or Bind marker. -/
theorem C3_amended (P : Int → Nat → Int) (root : Elem) (tcn : String)
    (y mo d : Nat) (g : RNG) (root2 : Elem) :
    (run_roles P root tcn y mo d g = [] ∨
     run_roles P root tcn y mo d g =
       ["CreateSubmission", "AnswerQuestions", "UpdateDwelling",
        "CreateCoverages", "QuoteIssue"]) ∧
    (should_quote root2 = .ok false → fb_process_quote root2 = .ok []) ∧
    (should_quote root2 = .ok true → fb_process_quote root2 = .ok
      [[some "check", some "CanRequestQuote", some "as", some "true"],
       [some "quote"],
       [some "check", some "Status", some "as", some "Quoted"]]) := by
  refine ⟨?_, ?_, ?_⟩
  · unfold run_roles run_tables
    cases hc : create_test_tables P root tcn y mo d g with
    | error e => left; rfl
    | ok p =>
      right
      obtain ⟨ts, g2⟩ := p
      unfold create_test_tables at hc
      repeat' split at hc
      all_goals simp_all
      obtain ⟨hts, -⟩ := hc
      subst hts
      simp
  · intro hq
    unfold fb_process_quote
    rw [hq]
  · intro hq
    unfold fb_process_quote
    rw [hq]

/-- Witness for C3's amended claim at the concrete specification without
markers: the FileBuilder quote step stays silent. -/
theorem C3_witness : fb_process_quote specNoQB = .ok [] :=
  (C3_amended Pone specNoQB "0001" 2026 1 5 ⟨7, 0⟩ specNoQB).2.1 rfl

/-- Claim C7, counterexample: the claim states that a Coverable with empty
selected Coverages raises a SuiteDreamsException naming the element before
any of its rows is emitted.  At the concrete coverable with no Coverage
children, the table generator first emits the select-coverable row and
only then fails — and it fails a Python assert (AssertionError), not a
SuiteDreamsException. -/
theorem C7_counterexample :
    cc_process_coverables Pone "TEST-HOP-0001-CC" coverableNoCoverages ⟨7, 0⟩ 0 =
      ⟨[[some "select", some "coverable", some "Dwell", some ""]], ⟨7, 0⟩, 0,
       some (.assertErr "Coverable must have coverages: Dwell")⟩ ∧
    ∀ msg, (cc_process_coverables Pone "TEST-HOP-0001-CC" coverableNoCoverages
      ⟨7, 0⟩ 0).err ≠ some (.suiteDreams msg) := by
  refine ⟨rfl, ?_⟩
  intro msg h
  rw [show (cc_process_coverables Pone "TEST-HOP-0001-CC" coverableNoCoverages
    ⟨7, 0⟩ 0).err = some (.assertErr "Coverable must have coverages: Dwell") from rfl] at h
  simp at h

/-- Claim C7, amended: a QuestionSet with zero Questions and a CoverageTerm
with zero Terms each raise a SuiteDreamsException naming the offending
element before any of their rows is emitted (FileBuilder paths); a
Coverable whose selected Coverages are empty instead fails an assert
(AssertionError) in the CreateCoverages table generator, after its
select-coverable row has already been emitted. -/
theorem C7_amended
    (P : Int → Nat → Int) (g : RNG)
    (qse : Elem) (qcode : String)
    (h1 : fetch_text qse "QuestionSetCode" = .ok qcode)
    (h2 : elemFindAll qse "Question" = [])
    (ct : Elem) (tcode : String)
    (h3 : fetch_text ct "CoverageTermCode" = .ok tcode)
    (h4 : elemFindAll ct "Term" = [])
    (cvb : Elem) (cname testid : String) (cnt : Nat) (g2 : RNG)
    (h5 : fetch_text cvb "CoverableName" = .ok cname)
    (h6 : fetch_coverages P cvb g = .ok ([], g2)) :
    fb_process_question_set P qse g =
      ⟨[], g, some (.suiteDreams
        ("Question set does not have any questions - " ++ qcode))⟩ ∧
    fb_process_coverage_term P ct g =
      ⟨[], g, some (.suiteDreams ("Coverage term must have terms - " ++ tcode))⟩ ∧
    cc_process_coverables P testid cvb g cnt =
      ⟨[[some "select", some "coverable", some cname, some ""]], g2, cnt,
       some (.assertErr ("Coverable must have coverages: " ++ cname))⟩ := by
  refine ⟨?_, ?_, ?_⟩
  · unfold fb_process_question_set
    rw [h1, h2]
    simp
  · unfold fb_process_coverage_term
    rw [h3, h4]
    simp
  · unfold cc_process_coverables
    rw [h5, h6]
    simp

/-- Witness for C7's amended claim at concrete empty elements. -/
theorem C7_witness :
    fb_process_question_set Pone emptyQuestionSet ⟨7, 0⟩ =
      ⟨[], ⟨7, 0⟩, some (.suiteDreams
        ("Question set does not have any questions - " ++ "QS1"))⟩ ∧
    fb_process_coverage_term Pone emptyCoverageTerm ⟨7, 0⟩ =
      ⟨[], ⟨7, 0⟩, some (.suiteDreams
        ("Coverage term must have terms - " ++ "HODW_Limit"))⟩ := by
  obtain ⟨w1, w2, _w3⟩ := C7_amended Pone ⟨7, 0⟩ emptyQuestionSet "QS1" rfl rfl
    emptyCoverageTerm "HODW_Limit" rfl rfl coverableNoCoverages "Dwell" "T" 0
    ⟨7, 0⟩ rfl rfl
  exact ⟨w1, w2⟩

theorem fetch_property_headings_loop_nil (P : Int → Nat → Int) (g : RNG) :
    fetch_property_headings_loop P [] g = .ok ([], g) := rfl

theorem fetch_property_headings_loop_cons (P : Int → Nat → Int) (p : Elem)
    (rest : List Elem) (g : RNG) :
    fetch_property_headings_loop P (p :: rest) g =
      (match process_property P p "PropertyName" "Value" g with
       | .error e => .error e
       | .ok ((name, _value), g) =>
         match fetch_property_headings_loop P rest g with
         | .error e => .error e
         | .ok (l, g) => .ok (name :: l, g)) := rfl

theorem fetch_property_values_loop_nil (P : Int → Nat → Int) (g : RNG) :
    fetch_property_values_loop P [] g = .ok ([], g) := rfl

theorem fetch_property_values_loop_cons (P : Int → Nat → Int) (p : Elem)
    (rest : List Elem) (g : RNG) :
    fetch_property_values_loop P (p :: rest) g =
      (match process_property P p "PropertyName" "Value" g with
       | .error e => .error e
       | .ok ((_name, value), g) =>
         match fetch_property_values_loop P rest g with
         | .error e => .error e
         | .ok (l, g) => .ok (value :: l, g)) := rfl

theorem dwellingColumnsRef_nil (P : Int → Nat → Int) (g : RNG) :
    dwellingColumnsRef P [] g = .ok ([], g) := rfl

theorem dwellingColumnsRef_cons (P : Int → Nat → Int) (p : Elem)
    (rest : List Elem) (g : RNG) :
    dwellingColumnsRef P (p :: rest) g =
      (match fetch_text p "PropertyName" with
       | .error e => .error e
       | .ok name =>
         match fetch_weight p with
         | .error e => .error e
         | .ok w =>
           if P g.seed g.pos ≤ w then
             match process_values p name "Value" (P g.seed (g.pos + 1)) with
             | .error e => .error e
             | .ok v =>
               match dwellingColumnsRef P rest ⟨g.seed, g.pos + 2⟩ with
               | .error e => .error e
               | .ok (cols, g) => .ok ((some name, some v) :: cols, g)
           else
             match dwellingColumnsRef P rest ⟨g.seed, g.pos + 1⟩ with
             | .error e => .error e
             | .ok (cols, g) => .ok ((none, none) :: cols, g)) := rfl

theorem process_property_eq (P : Int → Nat → Int) (p : Elem) (g : RNG) :
    process_property P p "PropertyName" "Value" g =
      (match fetch_text p "PropertyName" with
       | .error e => .error e
       | .ok name =>
         match fetch_weight p with
         | .error e => .error e
         | .ok w =>
           if P g.seed g.pos ≤ w then
             match process_values p name "Value" (P g.seed (g.pos + 1)) with
             | .error e => .error e
             | .ok v => .ok ((some name, some v), ⟨g.seed, g.pos + 2⟩)
           else .ok ((none, none), ⟨g.seed, g.pos + 1⟩)) := by
  unfold process_property select_element random_selector
  cases hft : fetch_text p "PropertyName" with
  | error e => rfl
  | ok name =>
    simp only []
    cases hw : fetch_weight p with
    | error e => rfl
    | ok w =>
      simp only []
      by_cases hsw : P g.seed g.pos ≤ w
      · rw [decide_eq_true hsw, if_pos hsw]
      · rw [decide_eq_false hsw, if_neg hsw]

theorem fetch_property_headings_loop_eq_ref (P : Int → Nat → Int) :
    ∀ (props : List Elem) (g : RNG),
      fetch_property_headings_loop P props g =
        Except.map (fun r => (r.1.map Prod.fst, r.2))
          (dwellingColumnsRef P props g) := by
  intro props
  induction props with
  | nil => intro g; rfl
  | cons p rest ih =>
    intro g
    rw [fetch_property_headings_loop_cons, dwellingColumnsRef_cons,
      process_property_eq]
    cases hft : fetch_text p "PropertyName" with
    | error e => rfl
    | ok name =>
      simp only []
      cases hw : fetch_weight p with
      | error e => rfl
      | ok w =>
        simp only []
        by_cases hsw : P g.seed g.pos ≤ w
        · rw [if_pos hsw, if_pos hsw]
          cases hpv : process_values p name "Value" (P g.seed (g.pos + 1)) with
          | error e => rfl
          | ok v =>
            simp only []
            rw [ih ⟨g.seed, g.pos + 2⟩]
            cases hrf : dwellingColumnsRef P rest ⟨g.seed, g.pos + 2⟩ with
            | error e => rfl
            | ok cr =>
              obtain ⟨cols, g3⟩ := cr
              simp [Except.map]
        · rw [if_neg hsw, if_neg hsw]
          simp only []
          rw [ih ⟨g.seed, g.pos + 1⟩]
          cases hrf : dwellingColumnsRef P rest ⟨g.seed, g.pos + 1⟩ with
          | error e => rfl
          | ok cr =>
            obtain ⟨cols, g3⟩ := cr
            simp [Except.map]

theorem fetch_property_values_loop_eq_ref (P : Int → Nat → Int) :
    ∀ (props : List Elem) (g : RNG),
      fetch_property_values_loop P props g =
        Except.map (fun r => (r.1.map Prod.snd, r.2))
          (dwellingColumnsRef P props g) := by
  intro props
  induction props with
  | nil => intro g; rfl
  | cons p rest ih =>
    intro g
    rw [fetch_property_values_loop_cons, dwellingColumnsRef_cons,
      process_property_eq]
    cases hft : fetch_text p "PropertyName" with
    | error e => rfl
    | ok name =>
      simp only []
      cases hw : fetch_weight p with
      | error e => rfl
      | ok w =>
        simp only []
        by_cases hsw : P g.seed g.pos ≤ w
        · rw [if_pos hsw, if_pos hsw]
          cases hpv : process_values p name "Value" (P g.seed (g.pos + 1)) with
          | error e => rfl
          | ok v =>
            simp only []
            rw [ih ⟨g.seed, g.pos + 2⟩]
            cases hrf : dwellingColumnsRef P rest ⟨g.seed, g.pos + 2⟩ with
            | error e => rfl
            | ok cr =>
              obtain ⟨cols, g3⟩ := cr
              simp [Except.map]
        · rw [if_neg hsw, if_neg hsw]
          simp only []
          rw [ih ⟨g.seed, g.pos + 1⟩]
          cases hrf : dwellingColumnsRef P rest ⟨g.seed, g.pos + 1⟩ with
          | error e => rfl
          | ok cr =>
            obtain ⟨cols, g3⟩ := cr
            simp [Except.map]

theorem dwellingColumnsRef_length (P : Int → Nat → Int) :
    ∀ (props : List Elem) (g : RNG) (cols : List (Option String × Option String))
      (g2 : RNG), dwellingColumnsRef P props g = .ok (cols, g2) →
      cols.length = props.length := by
  intro props
  induction props with
  | nil =>
    intro g cols g2 h
    rw [dwellingColumnsRef_nil] at h
    simp only [Except.ok.injEq, Prod.mk.injEq] at h
    rw [← h.1]
    rfl
  | cons p rest ih =>
    intro g cols g2 h
    rw [dwellingColumnsRef_cons] at h
    cases hft : fetch_text p "PropertyName" with
    | error e => rw [hft] at h; simp at h
    | ok name =>
      rw [hft] at h
      simp only [] at h
      cases hw : fetch_weight p with
      | error e => rw [hw] at h; simp at h
      | ok w =>
        rw [hw] at h
        simp only [] at h
        by_cases hsw : P g.seed g.pos ≤ w
        · rw [if_pos hsw] at h
          cases hpv : process_values p name "Value" (P g.seed (g.pos + 1)) with
          | error e => rw [hpv] at h; simp at h
          | ok v =>
            rw [hpv] at h
            simp only [] at h
            cases hrf : dwellingColumnsRef P rest ⟨g.seed, g.pos + 2⟩ with
            | error e => rw [hrf] at h; simp at h
            | ok cr =>
              obtain ⟨cols1, g3⟩ := cr
              rw [hrf] at h
              simp only [Except.ok.injEq, Prod.mk.injEq] at h
              rw [← h.1]
              simp [ih ⟨g.seed, g.pos + 2⟩ cols1 g3 hrf]
        · rw [if_neg hsw] at h
          cases hrf : dwellingColumnsRef P rest ⟨g.seed, g.pos + 1⟩ with
          | error e => rw [hrf] at h; simp at h
          | ok cr =>
            obtain ⟨cols1, g3⟩ := cr
            rw [hrf] at h
            simp only [Except.ok.injEq, Prod.mk.injEq] at h
            rw [← h.1]
            simp [ih ⟨g.seed, g.pos + 1⟩ cols1 g3 hrf]


/-- Claim C4, counterexample: the claim states the UpdateDwelling table has
one column per included Property, a column appearing iff the Property's
inclusion draw selects it.  At the concrete dwelling with one weight-0
Property (never selected), the heading pass still returns one entry — the
None name — and the generated table carries four columns (TestId,
Submission ID, the empty property column, Valid()) instead of three. -/
theorem C4_counterexample :
    updateDwelling_body Pone specDwellingW0 "fix.UD" "0001" ⟨7, 0⟩ =
      .ok ([[some "fix.UD"],
            [some "TestId", some "Submission ID", none, some "Valid()"],
            [some "TEST-HOP-0001-UD", some "SUBMISSION-0001", none, some "true"]],
           ⟨7, 2⟩) ∧
    fetch_property_headings Pone dwellingW0 ⟨7, 0⟩ = .ok ([none], ⟨7, 1⟩) ∧
    (elemFindAll dwellingW0 "Property").length = 1 :=
  ⟨rfl, rfl, rfl⟩

/-- Claim C4, amended: the UpdateDwelling table carries exactly one data
row, and one column per Property of the dwelling coverable whether or not
the property is included.  Both passes compute exactly the reference
column semantics `dwellingColumnsRef`, which ties every cell to that
pass's actual draws: a heading entry is the property's name precisely when
the headings-pass inclusion draw (the drawn value against the property's
weight, at the pass's own stream position) selects it and None otherwise,
and a data entry is the value resolved by the value-selection scan at the
values-pass's own second draw precisely when that independent pass's
inclusion draw selects it, and None otherwise. -/
theorem C4_amended (P : Int → Nat → Int) (root : Elem) (fx tcn : String) (g : RNG)
    (rows : List Row) (g2 : RNG)
    (hrun : updateDwelling_body P root fx tcn g = .ok (rows, g2)) :
    (∀ (props : List Elem) (h : RNG),
       fetch_property_headings_loop P props h =
         Except.map (fun r => (r.1.map Prod.fst, r.2))
           (dwellingColumnsRef P props h) ∧
       fetch_property_values_loop P props h =
         Except.map (fun r => (r.1.map Prod.snd, r.2))
           (dwellingColumnsRef P props h)) ∧
    ∃ sid dw cols1 cols2 g3,
      suite_id root = .ok sid ∧
      fetch_dwelling root = .ok (some dw) ∧
      dwellingColumnsRef P (elemFindAll dw "Property") g = .ok (cols1, g3) ∧
      dwellingColumnsRef P (elemFindAll dw "Property") g3 = .ok (cols2, g2) ∧
      rows = [[some fx],
              [some "TestId", some "Submission ID"] ++ cols1.map Prod.fst ++
                [some "Valid()"],
              [some (tt_test_id sid tcn "UD"), some (tt_submission_id tcn)] ++
                cols2.map Prod.snd ++ [some "true"]] ∧
      cols1.length = (elemFindAll dw "Property").length ∧
      cols2.length = (elemFindAll dw "Property").length := by
  refine ⟨fun props h => ⟨fetch_property_headings_loop_eq_ref P props h,
    fetch_property_values_loop_eq_ref P props h⟩, ?_⟩
  unfold updateDwelling_body at hrun
  cases hsid : suite_id root with
  | error e => rw [hsid] at hrun; simp at hrun
  | ok sid =>
    rw [hsid] at hrun
    simp only [] at hrun
    cases hd : fetch_dwelling root with
    | error e => rw [hd] at hrun; simp at hrun
    | ok od =>
      cases od with
      | none => rw [hd] at hrun; simp at hrun
      | some dw =>
        rw [hd] at hrun
        simp only [] at hrun
        rw [show fetch_property_headings P dw g =
          fetch_property_headings_loop P (elemFindAll dw "Property") g from rfl,
          fetch_property_headings_loop_eq_ref] at hrun
        cases hc1 : dwellingColumnsRef P (elemFindAll dw "Property") g with
        | error e => rw [hc1] at hrun; simp [Except.map] at hrun
        | ok cr1 =>
          obtain ⟨cols1, g3⟩ := cr1
          rw [hc1] at hrun
          simp only [Except.map] at hrun
          rw [show fetch_property_values P dw g3 =
            fetch_property_values_loop P (elemFindAll dw "Property") g3 from rfl,
            fetch_property_values_loop_eq_ref] at hrun
          cases hc2 : dwellingColumnsRef P (elemFindAll dw "Property") g3 with
          | error e => rw [hc2] at hrun; simp [Except.map] at hrun
          | ok cr2 =>
            obtain ⟨cols2, g4⟩ := cr2
            rw [hc2] at hrun
            simp only [Except.map, Except.ok.injEq, Prod.mk.injEq] at hrun
            refine ⟨sid, dw, cols1, cols2, g3, rfl, rfl, hc1, ?_, ?_,
              dwellingColumnsRef_length P (elemFindAll dw "Property") g cols1 g3 hc1,
              dwellingColumnsRef_length P (elemFindAll dw "Property") g3 cols2 g4 hc2⟩
            · rw [← hrun.2]
              exact hc2
            · rw [← hrun.1]

/-- Witness for C4's amended claim at the concrete weight-0 dwelling run. -/
theorem C4_witness :
    (∀ (props : List Elem) (h : RNG),
       fetch_property_headings_loop Pone props h =
         Except.map (fun r => (r.1.map Prod.fst, r.2))
           (dwellingColumnsRef Pone props h) ∧
       fetch_property_values_loop Pone props h =
         Except.map (fun r => (r.1.map Prod.snd, r.2))
           (dwellingColumnsRef Pone props h)) ∧
    ∃ sid dw cols1 cols2 g3,
      suite_id specDwellingW0 = .ok sid ∧
      fetch_dwelling specDwellingW0 = .ok (some dw) ∧
      dwellingColumnsRef Pone (elemFindAll dw "Property") ⟨7, 0⟩ = .ok (cols1, g3) ∧
      dwellingColumnsRef Pone (elemFindAll dw "Property") g3 = .ok (cols2, ⟨7, 2⟩) ∧
      ([[some "fix.UD"],
        [some "TestId", some "Submission ID", none, some "Valid()"],
        [some "TEST-HOP-0001-UD", some "SUBMISSION-0001", none, some "true"]] :
          List Row) =
        [[some "fix.UD"],
         [some "TestId", some "Submission ID"] ++ cols1.map Prod.fst ++
           [some "Valid()"],
         [some (tt_test_id sid "0001" "UD"), some (tt_submission_id "0001")] ++
           cols2.map Prod.snd ++ [some "true"]] ∧
      cols1.length = (elemFindAll dw "Property").length ∧
      cols2.length = (elemFindAll dw "Property").length :=
  C4_amended Pone specDwellingW0 "fix.UD" "0001" ⟨7, 0⟩
    [[some "fix.UD"],
     [some "TestId", some "Submission ID", none, some "Valid()"],
     [some "TEST-HOP-0001-UD", some "SUBMISSION-0001", none, some "true"]]
    ⟨7, 2⟩ rfl


theorem createSubmission_body_cells (P : Int → Nat → Int) (root : Elem)
    (fx tcn : String) (y mo d : Nat) (g : RNG) (rows : List Row) (g2 : RNG)
    (h : createSubmission_body P root fx tcn y mo d g = .ok (rows, g2)) :
    submission_cells "CreateSubmission" rows = [some (tt_submission_id tcn)] := by
  unfold createSubmission_body at h
  cases hsid : suite_id root with
  | error e => rw [hsid] at h; simp at h
  | ok sid =>
    rw [hsid] at h
    simp only [] at h
    cases hacct : account_number P root g with
    | error e => rw [hacct] at h; simp at h
    | ok ap =>
      obtain ⟨acct, g3⟩ := ap
      rw [hacct] at h
      simp only [] at h
      cases hsd : submission_date P y mo d root g3 with
      | error e => rw [hsd] at h; simp at h
      | ok sp =>
        obtain ⟨sdate, g4⟩ := sp
        rw [hsd] at h
        simp only [Except.ok.injEq, Prod.mk.injEq] at h
        rw [← h.1]
        simp [submission_cells]

theorem quoteIssue_body_cells (root : Elem) (fx tcn : String) (g : RNG)
    (rows : List Row) (g2 : RNG)
    (h : quoteIssue_body root fx tcn g = .ok (rows, g2)) :
    submission_cells "QuoteIssue" rows = [some (tt_submission_id tcn)] := by
  unfold quoteIssue_body at h
  cases hsid : suite_id root with
  | error e => rw [hsid] at h; simp at h
  | ok sid =>
    rw [hsid] at h
    simp only [Except.ok.injEq, Prod.mk.injEq] at h
    rw [← h.1]
    simp [submission_cells]

theorem aq_questions_loop_cells (P : Int → Nat → Int) (testid tcn qsc : String) :
    ∀ (qs : List Elem) (rn : Nat) (g : RNG) (out : List Row) (rn2 : Nat) (g2 : RNG),
      aq_questions_loop P testid tcn qsc qs rn g = .ok (out, rn2, g2) →
      ∀ r ∈ out, r.getD 1 none = some (tt_submission_id tcn) := by
  intro qs
  induction qs with
  | nil =>
    intro rn g out rn2 g2 h r hr
    simp only [aq_questions_loop, Except.ok.injEq, Prod.mk.injEq] at h
    rw [← h.1] at hr
    simp at hr
  | cons q rest ih =>
    intro rn g out rn2 g2 h r hr
    simp only [aq_questions_loop] at h
    cases hq : fetch_question_code_and_answer P q g with
    | error e => rw [hq] at h; simp at h
    | ok qp =>
      obtain ⟨⟨qc, answer⟩, g3⟩ := qp
      rw [hq] at h
      simp only [] at h
      cases hrest : aq_questions_loop P testid tcn qsc rest (rn + 1) g3 with
      | error e => rw [hrest] at h; simp at h
      | ok rp =>
        obtain ⟨rows1, rn3, g4⟩ := rp
        rw [hrest] at h
        simp only [Except.ok.injEq, Prod.mk.injEq] at h
        rw [← h.1] at hr
        rcases List.mem_cons.mp hr with hhead | htail
        · rw [hhead]; rfl
        · exact ih (rn + 1) g3 rows1 rn3 g4 hrest r htail

theorem aq_question_sets_loop_cells (P : Int → Nat → Int) (testid tcn : String) :
    ∀ (qses : List Elem) (rn : Nat) (g : RNG) (out : List Row) (rn2 : Nat) (g2 : RNG),
      aq_question_sets_loop P testid tcn qses rn g = .ok (out, rn2, g2) →
      ∀ r ∈ out, r.getD 1 none = some (tt_submission_id tcn) := by
  intro qses
  induction qses with
  | nil =>
    intro rn g out rn2 g2 h r hr
    simp only [aq_question_sets_loop, Except.ok.injEq, Prod.mk.injEq] at h
    rw [← h.1] at hr
    simp at hr
  | cons qse rest ih =>
    intro rn g out rn2 g2 h r hr
    simp only [aq_question_sets_loop] at h
    cases hqc : fetch_text qse "QuestionSetCode" with
    | error e => rw [hqc] at h; simp at h
    | ok qsc =>
      rw [hqc] at h
      simp only [] at h
      cases hq : aq_questions_loop P testid tcn qsc (elemFindAll qse "Question") rn g with
      | error e => rw [hq] at h; simp at h
      | ok qp =>
        obtain ⟨rows1, rn3, g3⟩ := qp
        rw [hq] at h
        simp only [] at h
        cases hrest : aq_question_sets_loop P testid tcn rest rn3 g3 with
        | error e => rw [hrest] at h; simp at h
        | ok rp =>
          obtain ⟨rows2, rn4, g4⟩ := rp
          rw [hrest] at h
          simp only [Except.ok.injEq, Prod.mk.injEq] at h
          rw [← h.1] at hr
          rcases List.mem_append.mp hr with h1 | h2
          · exact aq_questions_loop_cells P testid tcn qsc (elemFindAll qse "Question")
              rn g rows1 rn3 g3 hq r h1
          · exact ih rn3 g3 rows2 rn4 g4 hrest r h2

theorem answerQuestions_body_cells (P : Int → Nat → Int) (root : Elem)
    (fx tcn : String) (g : RNG) (rows : List Row) (g2 : RNG)
    (h : answerQuestions_body P root fx tcn g = .ok (rows, g2)) :
    ∀ c ∈ submission_cells "AnswerQuestions" rows,
      c = some (tt_submission_id tcn) := by
  unfold answerQuestions_body at h
  cases hsid : suite_id root with
  | error e => rw [hsid] at h; simp at h
  | ok sid =>
    rw [hsid] at h
    simp only [] at h
    cases hqs : fetch_question_sets root with
    | error e => rw [hqs] at h; simp at h
    | ok qses =>
      rw [hqs] at h
      simp only [] at h
      cases hloop : aq_question_sets_loop P (tt_test_id sid tcn "AQ") tcn qses 1 g with
      | error e => rw [hloop] at h; simp at h
      | ok lp =>
        obtain ⟨dataRows, rn2, g3⟩ := lp
        rw [hloop] at h
        simp only [Except.ok.injEq, Prod.mk.injEq] at h
        rw [← h.1]
        intro c hc
        simp only [submission_cells, if_neg (by decide : ¬ ("AnswerQuestions" = "CreateCoverages")),
          List.drop_succ_cons, List.drop_zero, List.mem_map] at hc
        obtain ⟨r, hr, hcr⟩ := hc
        rw [← hcr]
        exact aq_question_sets_loop_cells P (tt_test_id sid tcn "AQ") tcn qses 1 g
          dataRows rn2 g3 hloop r hr

theorem updateDwelling_body_cells (P : Int → Nat → Int) (root : Elem)
    (fx tcn : String) (g : RNG) (rows : List Row) (g2 : RNG)
    (h : updateDwelling_body P root fx tcn g = .ok (rows, g2)) :
    submission_cells "UpdateDwelling" rows = [some (tt_submission_id tcn)] := by
  unfold updateDwelling_body at h
  cases hsid : suite_id root with
  | error e => rw [hsid] at h; simp at h
  | ok sid =>
    rw [hsid] at h
    simp only [] at h
    cases hd : fetch_dwelling root with
    | error e => rw [hd] at h; simp at h
    | ok od =>
      cases od with
      | none => rw [hd] at h; simp at h
      | some dw =>
        rw [hd] at h
        simp only [] at h
        cases hh : fetch_property_headings P dw g with
        | error e => rw [hh] at h; simp at h
        | ok hsp =>
          obtain ⟨hs, g3⟩ := hsp
          rw [hh] at h
          simp only [] at h
          cases hv : fetch_property_values P dw g3 with
          | error e => rw [hv] at h; simp at h
          | ok vsp =>
            obtain ⟨vals, g4⟩ := vsp
            rw [hv] at h
            simp only [Except.ok.injEq, Prod.mk.injEq] at h
            rw [← h.1]
            simp [submission_cells]

theorem createCoverages_body_cells (P : Int → Nat → Int) (root : Elem)
    (fx tcn : String) (g : RNG) (rows : List Row) (g2 : RNG) (cnt : Nat)
    (h : createCoverages_body P root fx tcn g = ⟨rows, g2, cnt, none⟩) :
    submission_cells "CreateCoverages" rows = [some (tt_submission_id tcn)] := by
  unfold createCoverages_body at h
  cases hsid : suite_id root with
  | error e => rw [hsid] at h; simp at h
  | ok sid =>
    rw [hsid] at h
    simp only [] at h
    by_cases hlen : (tt_test_id sid tcn "CC").length = 0
    · rw [if_pos hlen] at h
      simp at h
    · rw [if_neg hlen] at h
      cases hcov : fetch_coverables P root g with
      | error e => rw [hcov] at h; simp at h
      | ok cp =>
        obtain ⟨covs, g3⟩ := cp
        rw [hcov] at h
        simp only [] at h
        by_cases hce : covs.length = 0
        · rw [if_pos hce] at h
          simp at h
        · rw [if_neg hce] at h
          cases hloop : cc_coverables_loop P (tt_test_id sid tcn "CC") covs g3 0 with
          | mk brows brng bcnt berr =>
            rw [hloop] at h
            simp only [] at h
            cases berr with
            | some e => simp at h
            | none =>
              simp only [CCSt.mk.injEq] at h
              rw [← h.1]
              simp [submission_cells]

theorem tt_submission_id_inj {a b : String}
    (h : tt_submission_id a = tt_submission_id b) : a = b := by
  unfold tt_submission_id at h
  have hd := congrArg String.data h
  rw [String.data_append, String.data_append] at hd
  exact String.ext (List.append_cancel_left hd)

/-- Claim C6: scenario n (n at most 9999) uses the submission identifier
"SUBMISSION-" followed by n zero-padded to four digits (the padded string
has length four and decodes back to n); identifiers of distinct scenarios
differ; the first five are SUBMISSION-0001 .. SUBMISSION-0005; and in every
table of a completed scenario, every submission-identifier cell carries
exactly this identifier. -/
theorem C6_submission_identifier
    (m n : Nat) (_hm : m ≤ 9999) (hn : n ≤ 9999) (hmn : m ≠ n)
    (P : Int → Nat → Int) (root : Elem) (y mo d : Nat) (g : RNG) :
    tt_submission_id (test_case_number n) = "SUBMISSION-" ++ test_case_number n ∧
    (test_case_number n).length = 4 ∧
    decodeStr (test_case_number n) = n ∧
    tt_submission_id (test_case_number m) ≠ tt_submission_id (test_case_number n) ∧
    ((List.range 5).map (fun i => tt_submission_id (test_case_number (i + 1))) =
      ["SUBMISSION-0001", "SUBMISSION-0002", "SUBMISSION-0003",
       "SUBMISSION-0004", "SUBMISSION-0005"]) ∧
    ∀ tb ∈ run_tables P root (test_case_number n) y mo d g,
      ∀ c ∈ submission_cells tb.1 tb.2,
        c = some (tt_submission_id (test_case_number n)) := by
  refine ⟨rfl, test_case_number_length hn, decodeStr_test_case_number n, ?_, by decide, ?_⟩
  · intro he
    exact hmn (test_case_number_inj (tt_submission_id_inj he))
  · unfold run_tables
    cases hc : create_test_tables P root (test_case_number n) y mo d g with
    | error e => intro tb htb; simp at htb
    | ok pres =>
      obtain ⟨ts, gend⟩ := pres
      unfold create_test_tables at hc
      cases h1 : fetch_fixture root "CreateSubmission" with
      | error e => rw [h1] at hc; simp at hc
      | ok o1 =>
        rw [h1] at hc
        cases o1 with
        | none => simp at hc
        | some fxCS =>
          simp only [] at hc
          cases h2 : fetch_fixture root "AnswerQuestions" with
          | error e => rw [h2] at hc; simp at hc
          | ok o2 =>
            rw [h2] at hc
            cases o2 with
            | none => simp at hc
            | some fxAQ =>
              simp only [] at hc
              cases h3 : fetch_fixture root "UpdateDwelling" with
              | error e => rw [h3] at hc; simp at hc
              | ok o3 =>
                rw [h3] at hc
                cases o3 with
                | none => simp at hc
                | some fxUD =>
                  simp only [] at hc
                  cases h4 : fetch_fixture root "CreateCoverages" with
                  | error e => rw [h4] at hc; simp at hc
                  | ok o4 =>
                    rw [h4] at hc
                    cases o4 with
                    | none => simp at hc
                    | some fxCC =>
                      simp only [] at hc
                      cases h5 : fetch_fixture root "QuoteIssue" with
                      | error e => rw [h5] at hc; simp at hc
                      | ok o5 =>
                        rw [h5] at hc
                        cases o5 with
                        | none => simp at hc
                        | some fxQI =>
                          simp only [] at hc
                          cases hb1 : createSubmission_body P root fxCS
                              (test_case_number n) y mo d g with
                          | error e => rw [hb1] at hc; simp at hc
                          | ok p1 =>
                            obtain ⟨r1, gg1⟩ := p1
                            rw [hb1] at hc
                            simp only [] at hc
                            cases hb2 : answerQuestions_body P root fxAQ
                                (test_case_number n) gg1 with
                            | error e => rw [hb2] at hc; simp at hc
                            | ok p2 =>
                              obtain ⟨r2, gg2⟩ := p2
                              rw [hb2] at hc
                              simp only [] at hc
                              cases hb3 : updateDwelling_body P root fxUD
                                  (test_case_number n) gg2 with
                              | error e => rw [hb3] at hc; simp at hc
                              | ok p3 =>
                                obtain ⟨r3, gg3⟩ := p3
                                rw [hb3] at hc
                                simp only [] at hc
                                cases hb4 : createCoverages_body P root fxCC
                                    (test_case_number n) gg3 with
                                | mk r4 gg4 cnt4 err4 =>
                                  rw [hb4] at hc
                                  cases err4 with
                                  | some e => simp at hc
                                  | none =>
                                    simp only [] at hc
                                    cases hb5 : quoteIssue_body root fxQI
                                        (test_case_number n) gg4 with
                                    | error e => rw [hb5] at hc; simp at hc
                                    | ok p5 =>
                                      obtain ⟨r5, gg5⟩ := p5
                                      rw [hb5] at hc
                                      simp only [Except.ok.injEq, Prod.mk.injEq] at hc
                                      intro tb htb
                                      rw [← hc.1] at htb
                                      simp only [List.mem_cons,
                                        List.not_mem_nil, or_false] at htb
                                      rcases htb with htb | htb | htb | htb | htb
                                      · subst htb
                                        intro c hcm
                                        rw [createSubmission_body_cells P root fxCS
                                          (test_case_number n) y mo d g r1 gg1 hb1] at hcm
                                        simpa using hcm
                                      · subst htb
                                        intro c hcm
                                        exact answerQuestions_body_cells P root fxAQ
                                          (test_case_number n) gg1 r2 gg2 hb2 c hcm
                                      · subst htb
                                        intro c hcm
                                        rw [updateDwelling_body_cells P root fxUD
                                          (test_case_number n) gg2 r3 gg3 hb3] at hcm
                                        simpa using hcm
                                      · subst htb
                                        intro c hcm
                                        rw [createCoverages_body_cells P root fxCC
                                          (test_case_number n) gg3 r4 gg4 cnt4 hb4] at hcm
                                        simpa using hcm
                                      · subst htb
                                        intro c hcm
                                        rw [quoteIssue_body_cells root fxQI
                                          (test_case_number n) gg4 r5 gg5 hb5] at hcm
                                        simpa using hcm

/-- Witness for C6 at scenarios 1 and 2 and the concrete specification. -/
theorem C6_witness :
    tt_submission_id (test_case_number 1) ≠ tt_submission_id (test_case_number 2) ∧
    (test_case_number 2).length = 4 ∧
    decodeStr (test_case_number 2) = 2 := by
  obtain ⟨_h1, h2, h3, h4, _h5, _h6⟩ := C6_submission_identifier 1 2
    (by norm_num) (by norm_num) (by norm_num) Pone specNoQB 2026 1 5 ⟨7, 0⟩
  exact ⟨h4, h2, h3⟩

/-- Witness for C5: a concrete Policy with only a Bind marker. -/
theorem C5_witness :
    should_quote specBindOnly = .ok true ∧
    fb_process_bind specBindOnly = .ok
      [[some "check", some "CanBind", some "as", some "true"],
       [some "bind"],
       [some "check", some "Status", some "as", some "Bound"]] := by
  obtain ⟨h1, _h2, _h3, h4⟩ := C5_bind_implies_quote specBindOnly
    (Elem.node "Policy" [] "" [.node "Bind" [] "" []]) rfl rfl
  exact ⟨h1, h4⟩

end SuiteDreams
